import Mathlib

/-!
Verification development for the memcached-rs client library.

The definitions below are a shallow embedding of the library's core:
the binary wire codec (src/proto/binarydef.rs), the single-connection
protocol driver's response handling (src/proto/binary.rs), and the
client routing facade (src/client/mod.rs).  Byte strings are modelled
as lists of naturals (each entry a byte value), machine integers as
naturals truncated with explicit modulus where the code truncates, and
fallible decoding as an Except over an explicit error type.  Panics
(the Bytes split_to out-of-range aborts and the client assert macros)
are modelled as distinguished error outcomes.
-/

set_option maxHeartbeats 1000000

namespace Memcached

/-! ### Byte-level primitives

Big-endian multi-byte integer serialization, mirroring the byteorder
crate's write_u16/u32/u64 with BigEndian on the wire.  A field value n
is written as the bytes of n modulo 2^width. -/

/-- Big-endian bytes of a u16 field value. -/
def u16Bytes (n : Nat) : List Nat :=
  [n / 256 % 256, n % 256]

/-- Big-endian bytes of a u32 field value. -/
def u32Bytes (n : Nat) : List Nat :=
  [n / 16777216 % 256, n / 65536 % 256, n / 256 % 256, n % 256]

/-- Big-endian bytes of a u64 field value. -/
def u64Bytes (n : Nat) : List Nat :=
  [n / 72057594037927936 % 256, n / 281474976710656 % 256,
   n / 1099511627776 % 256, n / 4294967296 % 256,
   n / 16777216 % 256, n / 65536 % 256, n / 256 % 256, n % 256]

/-- Read one byte from the stream (read_u8); none models an I/O EOF error. -/
def readByte : List Nat → Option (Nat × List Nat)
  | [] => none
  | b :: rest => some (b, rest)

/-- Read a big-endian u16 (read_u16 with BigEndian). -/
def readU16 : List Nat → Option (Nat × List Nat)
  | b1 :: b0 :: rest => some (b1 * 256 + b0, rest)
  | _ => none

/-- Read a big-endian u32 (read_u32 with BigEndian). -/
def readU32 : List Nat → Option (Nat × List Nat)
  | b3 :: b2 :: b1 :: b0 :: rest =>
    some (((b3 * 256 + b2) * 256 + b1) * 256 + b0, rest)
  | _ => none

/-- Read a big-endian u64 (read_u64 with BigEndian). -/
def readU64 : List Nat → Option (Nat × List Nat)
  | b7 :: b6 :: b5 :: b4 :: b3 :: b2 :: b1 :: b0 :: rest =>
    some (((((((b7 * 256 + b6) * 256 + b5) * 256 + b4) * 256 + b3) * 256
      + b2) * 256 + b1) * 256 + b0, rest)
  | _ => none

/-- Read exactly n bytes (read_exact); none models an I/O EOF error. -/
def readN (n : Nat) (s : List Nat) : Option (List Nat × List Nat) :=
  if n ≤ s.length then some (s.take n, s.drop n) else none

/-! ### Status, Command and DataType enumerations (src/proto/binarydef.rs) -/

/-- Memcached response status (binarydef.rs Status enum). -/
inductive Status where
  | NoError
  | KeyNotFound
  | KeyExists
  | ValueTooLarge
  | InvalidArguments
  | ItemNotStored
  | IncrDecrOnNonNumericValue
  | VBucketBelongsToOtherServer
  | AuthenticationError
  | AuthenticationContinue
  | UnknownCommand
  | OutOfMemory
  | NotSupported
  | InternalError
  | Busy
  | TemporaryFailure
  | AuthenticationRequired
  | AuthenticationFurtherStepRequired
  deriving DecidableEq, Repr

/-- Binary code of a status (Status::to_u16, the repr(u16) discriminants). -/
def Status.to_u16 : Status → Nat
  | .NoError => 0x0000
  | .KeyNotFound => 0x0001
  | .KeyExists => 0x0002
  | .ValueTooLarge => 0x0003
  | .InvalidArguments => 0x0004
  | .ItemNotStored => 0x0005
  | .IncrDecrOnNonNumericValue => 0x0006
  | .VBucketBelongsToOtherServer => 0x0007
  | .AuthenticationError => 0x0008
  | .AuthenticationContinue => 0x0009
  | .UnknownCommand => 0x0081
  | .OutOfMemory => 0x0082
  | .NotSupported => 0x0083
  | .InternalError => 0x0084
  | .Busy => 0x0085
  | .TemporaryFailure => 0x0086
  | .AuthenticationRequired => 0x0020
  | .AuthenticationFurtherStepRequired => 0x0021

/-- Status::from_u16: recognize a status code, or none. -/
def Status.from_u16 (code : Nat) : Option Status :=
  if code = 0x0000 then some .NoError
  else if code = 0x0001 then some .KeyNotFound
  else if code = 0x0002 then some .KeyExists
  else if code = 0x0003 then some .ValueTooLarge
  else if code = 0x0004 then some .InvalidArguments
  else if code = 0x0005 then some .ItemNotStored
  else if code = 0x0006 then some .IncrDecrOnNonNumericValue
  else if code = 0x0007 then some .VBucketBelongsToOtherServer
  else if code = 0x0008 then some .AuthenticationError
  else if code = 0x0009 then some .AuthenticationContinue
  else if code = 0x0081 then some .UnknownCommand
  else if code = 0x0082 then some .OutOfMemory
  else if code = 0x0083 then some .NotSupported
  else if code = 0x0084 then some .InternalError
  else if code = 0x0085 then some .Busy
  else if code = 0x0086 then some .TemporaryFailure
  else if code = 0x0020 then some .AuthenticationRequired
  else if code = 0x0021 then some .AuthenticationFurtherStepRequired
  else none

/-- Status::desc: short description per status. -/
def Status.desc : Status → String
  | .NoError => "no error"
  | .KeyNotFound => "key not found"
  | .KeyExists => "key exists"
  | .ValueTooLarge => "value too large"
  | .InvalidArguments => "invalid argument"
  | .ItemNotStored => "item not stored"
  | .IncrDecrOnNonNumericValue => "incr or decr on non-numeric value"
  | .VBucketBelongsToOtherServer => "vbucket belongs to other server"
  | .AuthenticationError => "authentication error"
  | .AuthenticationContinue => "authentication continue"
  | .UnknownCommand => "unknown command"
  | .OutOfMemory => "out of memory"
  | .NotSupported => "not supported"
  | .InternalError => "internal error"
  | .Busy => "busy"
  | .TemporaryFailure => "temporary failure"
  | .AuthenticationRequired => "authentication required/not successful"
  | .AuthenticationFurtherStepRequired => "further authentication steps required"

/-- Command opcodes (binarydef.rs Command enum, repr(u8)). -/
inductive Command where
  | Get
  | Set
  | Add
  | Replace
  | Delete
  | Increment
  | Decrement
  | Quit
  | Flush
  | GetQuietly
  | Noop
  | Version
  | GetKey
  | GetKeyQuietly
  | Append
  | Prepend
  | Stat
  | SetQuietly
  | AddQuietly
  | ReplaceQuietly
  | DeleteQuietly
  | IncrementQuietly
  | DecrementQuietly
  | QuitQuietly
  | FlushQuietly
  | AppendQuietly
  | PrependQuietly
  | Verbosity
  | Touch
  | GetAndTouch
  | GetAndTouchQuietly
  | SaslListMechanisms
  | SaslAuthenticate
  | SaslStep
  | RGet
  | RSet
  | RSetQuietly
  | RAppend
  | RAppendQuietly
  | RPrepend
  | RPrependQuietly
  | RDelete
  | RDeleteQuietly
  | RIncrement
  | RIncrementQuietly
  | RDecrement
  | RDecrementQuietly
  | SetVBucket
  | GetVBucket
  | DelVBucket
  | TapConnect
  | TapMutation
  | TapDelete
  | TapFlush
  | TapOpaque
  | TapVBucketSet
  | TapCheckpointStart
  | TapCheckpointEnd
  deriving DecidableEq, Repr

/-- Command::to_u8, the wire opcode of each command. -/
def Command.to_u8 : Command → Nat
  | .Get => 0x00
  | .Set => 0x01
  | .Add => 0x02
  | .Replace => 0x03
  | .Delete => 0x04
  | .Increment => 0x05
  | .Decrement => 0x06
  | .Quit => 0x07
  | .Flush => 0x08
  | .GetQuietly => 0x09
  | .Noop => 0x0A
  | .Version => 0x0B
  | .GetKey => 0x0C
  | .GetKeyQuietly => 0x0D
  | .Append => 0x0E
  | .Prepend => 0x0F
  | .Stat => 0x10
  | .SetQuietly => 0x11
  | .AddQuietly => 0x12
  | .ReplaceQuietly => 0x13
  | .DeleteQuietly => 0x14
  | .IncrementQuietly => 0x15
  | .DecrementQuietly => 0x16
  | .QuitQuietly => 0x17
  | .FlushQuietly => 0x18
  | .AppendQuietly => 0x19
  | .PrependQuietly => 0x1A
  | .Verbosity => 0x1B
  | .Touch => 0x1C
  | .GetAndTouch => 0x1D
  | .GetAndTouchQuietly => 0x1E
  | .SaslListMechanisms => 0x20
  | .SaslAuthenticate => 0x21
  | .SaslStep => 0x22
  | .RGet => 0x30
  | .RSet => 0x31
  | .RSetQuietly => 0x32
  | .RAppend => 0x33
  | .RAppendQuietly => 0x34
  | .RPrepend => 0x35
  | .RPrependQuietly => 0x36
  | .RDelete => 0x37
  | .RDeleteQuietly => 0x38
  | .RIncrement => 0x39
  | .RIncrementQuietly => 0x3A
  | .RDecrement => 0x3B
  | .RDecrementQuietly => 0x3C
  | .SetVBucket => 0x3D
  | .GetVBucket => 0x3E
  | .DelVBucket => 0x3F
  | .TapConnect => 0x40
  | .TapMutation => 0x41
  | .TapDelete => 0x42
  | .TapFlush => 0x43
  | .TapOpaque => 0x44
  | .TapVBucketSet => 0x45
  | .TapCheckpointStart => 0x46
  | .TapCheckpointEnd => 0x47

/-- Command::from_u8: recognize an opcode, or none. -/
def Command.from_u8 (code : Nat) : Option Command :=
  if code = 0x00 then some .Get
  else if code = 0x01 then some .Set
  else if code = 0x02 then some .Add
  else if code = 0x03 then some .Replace
  else if code = 0x04 then some .Delete
  else if code = 0x05 then some .Increment
  else if code = 0x06 then some .Decrement
  else if code = 0x07 then some .Quit
  else if code = 0x08 then some .Flush
  else if code = 0x09 then some .GetQuietly
  else if code = 0x0A then some .Noop
  else if code = 0x0B then some .Version
  else if code = 0x0C then some .GetKey
  else if code = 0x0D then some .GetKeyQuietly
  else if code = 0x0E then some .Append
  else if code = 0x0F then some .Prepend
  else if code = 0x10 then some .Stat
  else if code = 0x11 then some .SetQuietly
  else if code = 0x12 then some .AddQuietly
  else if code = 0x13 then some .ReplaceQuietly
  else if code = 0x14 then some .DeleteQuietly
  else if code = 0x15 then some .IncrementQuietly
  else if code = 0x16 then some .DecrementQuietly
  else if code = 0x17 then some .QuitQuietly
  else if code = 0x18 then some .FlushQuietly
  else if code = 0x19 then some .AppendQuietly
  else if code = 0x1A then some .PrependQuietly
  else if code = 0x1B then some .Verbosity
  else if code = 0x1C then some .Touch
  else if code = 0x1D then some .GetAndTouch
  else if code = 0x1E then some .GetAndTouchQuietly
  else if code = 0x20 then some .SaslListMechanisms
  else if code = 0x21 then some .SaslAuthenticate
  else if code = 0x22 then some .SaslStep
  else if code = 0x30 then some .RGet
  else if code = 0x31 then some .RSet
  else if code = 0x32 then some .RSetQuietly
  else if code = 0x33 then some .RAppend
  else if code = 0x34 then some .RAppendQuietly
  else if code = 0x35 then some .RPrepend
  else if code = 0x36 then some .RPrependQuietly
  else if code = 0x37 then some .RDelete
  else if code = 0x38 then some .RDeleteQuietly
  else if code = 0x39 then some .RIncrement
  else if code = 0x3A then some .RIncrementQuietly
  else if code = 0x3B then some .RDecrement
  else if code = 0x3C then some .RDecrementQuietly
  else if code = 0x3D then some .SetVBucket
  else if code = 0x3E then some .GetVBucket
  else if code = 0x3F then some .DelVBucket
  else if code = 0x40 then some .TapConnect
  else if code = 0x41 then some .TapMutation
  else if code = 0x42 then some .TapDelete
  else if code = 0x43 then some .TapFlush
  else if code = 0x44 then some .TapOpaque
  else if code = 0x45 then some .TapVBucketSet
  else if code = 0x46 then some .TapCheckpointStart
  else if code = 0x47 then some .TapCheckpointEnd
  else none

/-- DataType (binarydef.rs): single RawBytes variant. -/
inductive DataType where
  | RawBytes
  deriving DecidableEq, Repr

/-- DataType::to_u8. -/
def DataType.to_u8 : DataType → Nat
  | .RawBytes => 0x00

/-- DataType::from_u8: recognize a data-type code, or none. -/
def DataType.from_u8 (code : Nat) : Option DataType :=
  if code = 0x00 then some .RawBytes else none

/-! ### Headers and packets (src/proto/binarydef.rs) -/

/-- Decode outcomes other than success.  In the source: eof and the
invalid* cases are io::Error values, panicSplit is the Bytes
split_to out-of-range panic in read_from. -/
inductive DecodeError where
  | eof
  | invalidMagic
  | invalidCommand
  | invalidDataType
  | invalidStatus
  | panicSplit
  deriving DecidableEq, Repr

/-- RequestHeader (binarydef.rs); field opq is the opaque correlation token. -/
structure RequestHeader where
  command : Command
  key_len : Nat
  extra_len : Nat
  data_type : DataType
  vbucket_id : Nat
  body_len : Nat
  opq : Nat
  cas : Nat
  deriving DecidableEq, Repr

/-- RequestHeader::from_payload: lengths derived from the payload slices,
with the key length truncated as u16, extras as u8, body as u32. -/
def RequestHeader.from_payload (cmd : Command) (dtype : DataType)
    (vbid opq cas : Nat) (key extra value : List Nat) : RequestHeader :=
  { command := cmd
    key_len := key.length % 65536
    extra_len := extra.length % 256
    data_type := dtype
    vbucket_id := vbid
    body_len := (key.length + extra.length + value.length) % 4294967296
    opq := opq
    cas := cas }

/-- RequestHeader::write_to: the 24 header bytes, big-endian fields. -/
def RequestHeader.write_to (h : RequestHeader) : List Nat :=
  0x80 :: h.command.to_u8 ::
    (u16Bytes h.key_len ++ (h.extra_len % 256) :: h.data_type.to_u8 ::
      (u16Bytes h.vbucket_id ++ u32Bytes h.body_len ++ u32Bytes h.opq ++
        u64Bytes h.cas))

/-- RequestHeader::read_from: sequential reads with early error returns,
mirroring the ? operator chain in the source. -/
def RequestHeader.read_from (s : List Nat) :
    Except DecodeError (RequestHeader × List Nat) :=
  match readByte s with
  | none => .error .eof
  | some (magic, s1) =>
    if magic = 0x80 then
      match readByte s1 with
      | none => .error .eof
      | some (cb, s2) =>
        match Command.from_u8 cb with
        | none => .error .invalidCommand
        | some cmd =>
          match readU16 s2 with
          | none => .error .eof
          | some (kl, s3) =>
            match readByte s3 with
            | none => .error .eof
            | some (el, s4) =>
              match readByte s4 with
              | none => .error .eof
              | some (db, s5) =>
                match DataType.from_u8 db with
                | none => .error .invalidDataType
                | some dt =>
                  match readU16 s5 with
                  | none => .error .eof
                  | some (vb, s6) =>
                    match readU32 s6 with
                    | none => .error .eof
                    | some (bl, s7) =>
                      match readU32 s7 with
                      | none => .error .eof
                      | some (op, s8) =>
                        match readU64 s8 with
                        | none => .error .eof
                        | some (cs, s9) =>
                          .ok (⟨cmd, kl, el, dt, vb, bl, op, cs⟩, s9)
    else .error .invalidMagic

/-- ResponseHeader (binarydef.rs): same layout with status in the vbucket slot. -/
structure ResponseHeader where
  command : Command
  key_len : Nat
  extra_len : Nat
  data_type : DataType
  status : Status
  body_len : Nat
  opq : Nat
  cas : Nat
  deriving DecidableEq, Repr

/-- ResponseHeader::from_payload. -/
def ResponseHeader.from_payload (cmd : Command) (dtype : DataType)
    (status : Status) (opq cas : Nat) (key extra value : List Nat) :
    ResponseHeader :=
  { command := cmd
    key_len := key.length % 65536
    extra_len := extra.length % 256
    data_type := dtype
    status := status
    body_len := (key.length + extra.length + value.length) % 4294967296
    opq := opq
    cas := cas }

/-- ResponseHeader::write_to. -/
def ResponseHeader.write_to (h : ResponseHeader) : List Nat :=
  0x81 :: h.command.to_u8 ::
    (u16Bytes h.key_len ++ (h.extra_len % 256) :: h.data_type.to_u8 ::
      (u16Bytes h.status.to_u16 ++ u32Bytes h.body_len ++ u32Bytes h.opq ++
        u64Bytes h.cas))

/-- ResponseHeader::read_from. -/
def ResponseHeader.read_from (s : List Nat) :
    Except DecodeError (ResponseHeader × List Nat) :=
  match readByte s with
  | none => .error .eof
  | some (magic, s1) =>
    if magic = 0x81 then
      match readByte s1 with
      | none => .error .eof
      | some (cb, s2) =>
        match Command.from_u8 cb with
        | none => .error .invalidCommand
        | some cmd =>
          match readU16 s2 with
          | none => .error .eof
          | some (kl, s3) =>
            match readByte s3 with
            | none => .error .eof
            | some (el, s4) =>
              match readByte s4 with
              | none => .error .eof
              | some (db, s5) =>
                match DataType.from_u8 db with
                | none => .error .invalidDataType
                | some dt =>
                  match readU16 s5 with
                  | none => .error .eof
                  | some (st, s6) =>
                    match Status.from_u16 st with
                    | none => .error .invalidStatus
                    | some status =>
                      match readU32 s6 with
                      | none => .error .eof
                      | some (bl, s7) =>
                        match readU32 s7 with
                        | none => .error .eof
                        | some (op, s8) =>
                          match readU64 s8 with
                          | none => .error .eof
                          | some (cs, s9) =>
                            .ok (⟨cmd, kl, el, dt, status, bl, op, cs⟩, s9)
    else .error .invalidMagic

/-- RequestPacket (binarydef.rs): header plus the three payload segments. -/
structure RequestPacket where
  header : RequestHeader
  extra : List Nat
  key : List Nat
  value : List Nat
  deriving DecidableEq, Repr

/-- RequestPacket::new: header derived from the payload bytes. -/
def RequestPacket.new (cmd : Command) (dtype : DataType)
    (vbid opq cas : Nat) (extra key value : List Nat) : RequestPacket :=
  { header := RequestHeader.from_payload cmd dtype vbid opq cas key extra value
    extra := extra
    key := key
    value := value }

/-- RequestPacket::write_to: header then extra, key, value. -/
def RequestPacket.write_to (p : RequestPacket) : List Nat :=
  p.header.write_to ++ p.extra ++ p.key ++ p.value

/-- RequestPacket::read_from.  The source allocates a body_len buffer and
splits it with split_to(extra_len) then split_to(key_len); each split
panics when the requested length exceeds what remains, which we model
as the panicSplit outcome.  Then extra, key and value are filled with
read_exact in that order. -/
def RequestPacket.read_from (s : List Nat) :
    Except DecodeError (RequestPacket × List Nat) :=
  match RequestHeader.read_from s with
  | .error e => .error e
  | .ok (h, s1) =>
    if h.extra_len > h.body_len then .error .panicSplit
    else if h.key_len > h.body_len - h.extra_len then .error .panicSplit
    else
      match readN h.extra_len s1 with
      | none => .error .eof
      | some (extra, s2) =>
        match readN h.key_len s2 with
        | none => .error .eof
        | some (key, s3) =>
          match readN (h.body_len - h.extra_len - h.key_len) s3 with
          | none => .error .eof
          | some (value, s4) =>
            .ok (⟨h, extra, key, value⟩, s4)

/-- ResponsePacket (binarydef.rs). -/
structure ResponsePacket where
  header : ResponseHeader
  extra : List Nat
  key : List Nat
  value : List Nat
  deriving DecidableEq, Repr

/-- ResponsePacket::new. -/
def ResponsePacket.new (cmd : Command) (dtype : DataType) (status : Status)
    (opq cas : Nat) (extra key value : List Nat) : ResponsePacket :=
  { header := ResponseHeader.from_payload cmd dtype status opq cas key extra value
    extra := extra
    key := key
    value := value }

/-- ResponsePacket::write_to. -/
def ResponsePacket.write_to (p : ResponsePacket) : List Nat :=
  p.header.write_to ++ p.extra ++ p.key ++ p.value

/-- ResponsePacket::read_from, with the same split_to panic modelling as
RequestPacket.read_from. -/
def ResponsePacket.read_from (s : List Nat) :
    Except DecodeError (ResponsePacket × List Nat) :=
  match ResponseHeader.read_from s with
  | .error e => .error e
  | .ok (h, s1) =>
    if h.extra_len > h.body_len then .error .panicSplit
    else if h.key_len > h.body_len - h.extra_len then .error .panicSplit
    else
      match readN h.extra_len s1 with
      | none => .error .eof
      | some (extra, s2) =>
        match readN h.key_len s2 with
        | none => .error .eof
        | some (key, s3) =>
          match readN (h.body_len - h.extra_len - h.key_len) s3 with
          | none => .error .eof
          | some (value, s4) =>
            .ok (⟨h, extra, key, value⟩, s4)

end Memcached

namespace Memcached

/-! ### Codec lemmas -/

/-- Reading back the two big-endian bytes of a u16 value recovers it. -/
theorem readU16_u16Bytes (n : Nat) (hn : n < 65536) (rest : List Nat) :
    readU16 (u16Bytes n ++ rest) = some (n, rest) := by
  simp only [u16Bytes, List.cons_append, List.nil_append, readU16,
    Option.some.injEq, Prod.mk.injEq, and_true]
  omega

/-- Reading back the four big-endian bytes of a u32 value recovers it. -/
theorem readU32_u32Bytes (n : Nat) (hn : n < 4294967296) (rest : List Nat) :
    readU32 (u32Bytes n ++ rest) = some (n, rest) := by
  simp only [u32Bytes, List.cons_append, List.nil_append, readU32,
    Option.some.injEq, Prod.mk.injEq, and_true]
  omega

/-- Reading back the eight big-endian bytes of a u64 value recovers it. -/
theorem readU64_u64Bytes (n : Nat) (hn : n < 18446744073709551616)
    (rest : List Nat) : readU64 (u64Bytes n ++ rest) = some (n, rest) := by
  simp only [u64Bytes, List.cons_append, List.nil_append, readU64,
    Option.some.injEq, Prod.mk.injEq, and_true]
  omega

/-- read_exact of exactly the prefix length splits the prefix off. -/
theorem readN_append (l t : List Nat) : readN l.length (l ++ t) = some (l, t) := by
  simp [readN]

/-- Status.from_u16 is a left inverse of Status.to_u16. -/
theorem Status.from_u16_to_u16 (s : Status) : Status.from_u16 s.to_u16 = some s := by
  cases s <;> rfl

/-- Command.from_u8 is a left inverse of Command.to_u8. -/
theorem Command.from_u8_to_u8 (c : Command) : Command.from_u8 c.to_u8 = some c := by
  cases c <;> rfl

/-- DataType.from_u8 is a left inverse of DataType.to_u8. -/
theorem DataType.from_u8_to_u8_raw (d : DataType) : DataType.from_u8 d.to_u8 = some d := by
  cases d
  rfl

/-- Status codes are 16-bit values. -/
theorem Status.to_u16_lt (s : Status) : s.to_u16 < 65536 := by
  cases s <;> simp [Status.to_u16]

/-- Decoding the serialized bytes of a request header (fields in range)
recovers the header and leaves the rest of the stream. -/
theorem RequestHeader.roundtrip_request_header (h : RequestHeader) (rest : List Nat)
    (hk : h.key_len < 65536) (he : h.extra_len < 256) (hv : h.vbucket_id < 65536)
    (hb : h.body_len < 4294967296) (ho : h.opq < 4294967296)
    (hc : h.cas < 18446744073709551616) :
    RequestHeader.read_from (h.write_to ++ rest) = .ok (h, rest) := by
  obtain ⟨cmd, kl, el, dt, vb, bl, op, cs⟩ := h
  simp only at hk he hv hb ho hc
  simp only [RequestHeader.write_to, u16Bytes, u32Bytes, u64Bytes,
    List.cons_append, List.nil_append, List.append_assoc]
  simp only [RequestHeader.read_from, readByte, readU16, readU32, readU64,
    Command.from_u8_to_u8, DataType.from_u8_to_u8_raw, if_pos]
  simp only [Except.ok.injEq, Prod.mk.injEq, RequestHeader.mk.injEq,
    and_true, true_and]
  omega

/-- Decoding the serialized bytes of a response header (fields in range)
recovers the header and leaves the rest of the stream. -/
theorem ResponseHeader.roundtrip_response_header (h : ResponseHeader) (rest : List Nat)
    (hk : h.key_len < 65536) (he : h.extra_len < 256)
    (hb : h.body_len < 4294967296) (ho : h.opq < 4294967296)
    (hc : h.cas < 18446744073709551616) :
    ResponseHeader.read_from (h.write_to ++ rest) = .ok (h, rest) := by
  obtain ⟨cmd, kl, el, dt, st, bl, op, cs⟩ := h
  simp only at hk he hb ho hc
  have hst : st.to_u16 < 65536 := Status.to_u16_lt st
  simp only [ResponseHeader.write_to, u16Bytes, u32Bytes, u64Bytes,
    List.cons_append, List.nil_append, List.append_assoc]
  simp only [ResponseHeader.read_from, readByte, readU16, readU32, readU64,
    Command.from_u8_to_u8, if_pos]
  have hrec : st.to_u16 / 256 % 256 * 256 + st.to_u16 % 256 = st.to_u16 := by omega
  simp only [hrec, Status.from_u16_to_u16, DataType.from_u8_to_u8_raw]
  simp only [Except.ok.injEq, Prod.mk.injEq, ResponseHeader.mk.injEq,
    and_true, true_and]
  omega

end Memcached

namespace Memcached

/-- Request packet round trip: serializing a packet built by
RequestPacket::new and decoding the bytes recovers the packet, provided
the payload lengths fit the u8/u16 length fields and the u32 body field. -/
theorem RequestPacket.roundtrip_request_packet (cmd : Command) (dtype : DataType)
    (vbid opq cas : Nat) (extra key value rest : List Nat)
    (hk : key.length < 65536) (he : extra.length < 256)
    (hb : key.length + extra.length + value.length < 4294967296)
    (hv : vbid < 65536) (ho : opq < 4294967296)
    (hc : cas < 18446744073709551616) :
    RequestPacket.read_from
      ((RequestPacket.new cmd dtype vbid opq cas extra key value).write_to ++ rest)
      = .ok (RequestPacket.new cmd dtype vbid opq cas extra key value, rest) := by
  have e1 : (RequestPacket.new cmd dtype vbid opq cas extra key value).write_to ++ rest
      = (RequestHeader.from_payload cmd dtype vbid opq cas key extra value).write_to
        ++ (extra ++ (key ++ (value ++ rest))) := by
    simp [RequestPacket.write_to, RequestPacket.new, List.append_assoc]
  have hkl : (RequestHeader.from_payload cmd dtype vbid opq cas key extra value).key_len
      = key.length := by
    simp [RequestHeader.from_payload]; omega
  have hel : (RequestHeader.from_payload cmd dtype vbid opq cas key extra value).extra_len
      = extra.length := by
    simp [RequestHeader.from_payload]; omega
  have hbl : (RequestHeader.from_payload cmd dtype vbid opq cas key extra value).body_len
      = key.length + extra.length + value.length := by
    simp [RequestHeader.from_payload]; omega
  have hdr := RequestHeader.roundtrip_request_header
    (RequestHeader.from_payload cmd dtype vbid opq cas key extra value)
    (extra ++ (key ++ (value ++ rest)))
    (by omega) (by omega) (by simpa [RequestHeader.from_payload] using hv)
    (by omega) (by simpa [RequestHeader.from_payload] using ho)
    (by simpa [RequestHeader.from_payload] using hc)
  rw [RequestPacket.read_from, e1, hdr]
  simp only [hkl, hel, hbl]
  rw [if_neg (by omega), if_neg (by omega)]
  simp only [show key.length + extra.length + value.length - extra.length - key.length
      = value.length by omega, readN_append]
  rfl

/-- Response packet round trip, as for requests. -/
theorem ResponsePacket.roundtrip_response_packet (cmd : Command) (dtype : DataType)
    (status : Status) (opq cas : Nat) (extra key value rest : List Nat)
    (hk : key.length < 65536) (he : extra.length < 256)
    (hb : key.length + extra.length + value.length < 4294967296)
    (ho : opq < 4294967296) (hc : cas < 18446744073709551616) :
    ResponsePacket.read_from
      ((ResponsePacket.new cmd dtype status opq cas extra key value).write_to ++ rest)
      = .ok (ResponsePacket.new cmd dtype status opq cas extra key value, rest) := by
  have e1 : (ResponsePacket.new cmd dtype status opq cas extra key value).write_to ++ rest
      = (ResponseHeader.from_payload cmd dtype status opq cas key extra value).write_to
        ++ (extra ++ (key ++ (value ++ rest))) := by
    simp [ResponsePacket.write_to, ResponsePacket.new, List.append_assoc]
  have hkl : (ResponseHeader.from_payload cmd dtype status opq cas key extra value).key_len
      = key.length := by
    simp [ResponseHeader.from_payload]; omega
  have hel : (ResponseHeader.from_payload cmd dtype status opq cas key extra value).extra_len
      = extra.length := by
    simp [ResponseHeader.from_payload]; omega
  have hbl : (ResponseHeader.from_payload cmd dtype status opq cas key extra value).body_len
      = key.length + extra.length + value.length := by
    simp [ResponseHeader.from_payload]; omega
  have hdr := ResponseHeader.roundtrip_response_header
    (ResponseHeader.from_payload cmd dtype status opq cas key extra value)
    (extra ++ (key ++ (value ++ rest)))
    (by omega) (by omega) (by omega)
    (by simpa [ResponseHeader.from_payload] using ho)
    (by simpa [ResponseHeader.from_payload] using hc)
  rw [ResponsePacket.read_from, e1, hdr]
  simp only [hkl, hel, hbl]
  rw [if_neg (by omega), if_neg (by omega)]
  simp only [show key.length + extra.length + value.length - extra.length - key.length
      = value.length by omega, readN_append]
  rfl

end Memcached

namespace Memcached

/-- **C1** (amended): for every request packet built from a command, data
type, vbucket id, opaque token, cas and extras/key/value byte strings whose
lengths are within the u8 (extras) and u16 (key) limits, and whose combined
payload length fits the u32 body-length field, serializing with write_to and
decoding with read_from reproduces the same command, data type, opaque, cas
and the three payload segments byte-for-byte, and the header body length
equals the sum of the three segment lengths; the same holds for response
packets.  (The u32 bound on the combined length is the amendment: without
it the computed body length wraps, see the counterexample.) -/
theorem C1_packet_roundtrip (cmd : Command) (dtype : DataType) (status : Status)
    (vbid opq cas : Nat) (extra key value rest : List Nat)
    (hk : key.length < 65536) (he : extra.length < 256)
    (hb : key.length + extra.length + value.length < 4294967296)
    (hv : vbid < 65536) (ho : opq < 4294967296)
    (hc : cas < 18446744073709551616) :
    RequestPacket.read_from
      ((RequestPacket.new cmd dtype vbid opq cas extra key value).write_to ++ rest)
      = .ok (RequestPacket.new cmd dtype vbid opq cas extra key value, rest)
    ∧ (RequestPacket.new cmd dtype vbid opq cas extra key value).header.body_len
      = extra.length + key.length + value.length
    ∧ ResponsePacket.read_from
      ((ResponsePacket.new cmd dtype status opq cas extra key value).write_to ++ rest)
      = .ok (ResponsePacket.new cmd dtype status opq cas extra key value, rest)
    ∧ (ResponsePacket.new cmd dtype status opq cas extra key value).header.body_len
      = extra.length + key.length + value.length := by
  refine ⟨RequestPacket.roundtrip_request_packet cmd dtype vbid opq cas extra key value rest
      hk he hb hv ho hc, ?_,
    ResponsePacket.roundtrip_response_packet cmd dtype status opq cas extra key value rest
      hk he hb ho hc, ?_⟩ <;>
    (simp [RequestPacket.new, ResponsePacket.new, RequestHeader.from_payload,
      ResponseHeader.from_payload]; omega)

/-- Witness for C1: the round trip evaluated at a small concrete packet. -/
theorem C1_packet_roundtrip_witness :
    RequestPacket.read_from
      ((RequestPacket.new .Set .RawBytes 3 5 7 [1, 2] [9] [4, 5, 6]).write_to ++ [0])
      = .ok (RequestPacket.new .Set .RawBytes 3 5 7 [1, 2] [9] [4, 5, 6], [0])
    ∧ (RequestPacket.new .Set .RawBytes 3 5 7 [1, 2] [9] [4, 5, 6]).header.body_len
      = 2 + 1 + 3
    ∧ ResponsePacket.read_from
      ((ResponsePacket.new .Set .RawBytes .NoError 5 7 [1, 2] [9] [4, 5, 6]).write_to ++ [0])
      = .ok (ResponsePacket.new .Set .RawBytes .NoError 5 7 [1, 2] [9] [4, 5, 6], [0])
    ∧ (ResponsePacket.new .Set .RawBytes .NoError 5 7 [1, 2] [9] [4, 5, 6]).header.body_len
      = 2 + 1 + 3 := by
  have h := C1_packet_roundtrip .Set .RawBytes .NoError 3 5 7 [1, 2] [9] [4, 5, 6] [0]
    (by norm_num) (by norm_num) (by norm_num) (by norm_num) (by norm_num) (by norm_num)
  simpa using h

end Memcached

namespace Memcached

/-- Serialized form of a Set request with empty key/extras and a value of
exactly 2^32 bytes: the computed u32 body length wraps to 0, so the header
is 24 bytes whose length fields are all zero, followed by the value bytes. -/
theorem write_to_wrapped_body (v : List Nat) (hlen : v.length = 4294967296) :
    (RequestPacket.new .Set .RawBytes 0 0 0 [] [] v).write_to
      = [0x80, 0x01, 0, 0, 0, 0, 0, 0, 0, 0, 0, 0, 0, 0, 0, 0,
         0, 0, 0, 0, 0, 0, 0, 0] ++ v := by
  simp only [RequestPacket.new, RequestPacket.write_to,
    RequestHeader.from_payload, RequestHeader.write_to, hlen,
    u16Bytes, u32Bytes, u64Bytes, Command.to_u8, DataType.to_u8]
  norm_num

/-- Decoding a Set request header with all-zero length fields yields an
empty value segment, whatever bytes follow the header. -/
theorem read_from_wrapped_body (v : List Nat) :
    Except.map (fun pr => pr.1.value)
      (RequestPacket.read_from
        ([0x80, 0x01, 0, 0, 0, 0, 0, 0, 0, 0, 0, 0, 0, 0, 0, 0,
          0, 0, 0, 0, 0, 0, 0, 0] ++ v))
      = Except.ok ([] : List Nat) := by
  simp only [List.cons_append, List.nil_append]
  simp [RequestPacket.read_from, RequestHeader.read_from, readByte, readU16,
    readU32, readU64, Command.from_u8, DataType.from_u8, readN, Except.map]

/-- **C1** counterexample: the claim bounds only the extras (u8) and key
(u16) lengths, leaving the value length unconstrained.  For the packet
built with empty key and extras and a value of 2^32 bytes, the computed
body length wraps to 0, and decoding the serialized bytes returns an
empty value segment instead of reproducing the value byte-for-byte. -/
theorem C1_counterexample :
    Except.map (fun pr => pr.1.value)
      (RequestPacket.read_from
        ((RequestPacket.new .Set .RawBytes 0 0 0 [] []
          (List.replicate 4294967296 0)).write_to))
      = Except.ok ([] : List Nat)
    ∧ List.replicate 4294967296 (0 : Nat) ≠ ([] : List Nat) := by
  constructor
  · rw [write_to_wrapped_body (List.replicate 4294967296 0) (List.length_replicate _ _)]
    exact read_from_wrapped_body _
  · intro h
    have hlen := congrArg List.length h
    rw [List.length_replicate] at hlen
    exact absurd hlen (by norm_num)

end Memcached

namespace Memcached

/-- Status.from_u16 is a right inverse: a recognized code maps back to itself. -/
theorem Status.to_u16_from_u16 (n : Nat) (x : Status)
    (h : Status.from_u16 n = some x) : x.to_u16 = n := by
  by_cases h0 : n = 0x0000
  · subst h0
    rw [show Status.from_u16 0x0000 = some Status.NoError from rfl] at h
    injection h with h2
    subst h2
    rfl
  by_cases h1 : n = 0x0001
  · subst h1
    rw [show Status.from_u16 0x0001 = some Status.KeyNotFound from rfl] at h
    injection h with h2
    subst h2
    rfl
  by_cases h2 : n = 0x0002
  · subst h2
    rw [show Status.from_u16 0x0002 = some Status.KeyExists from rfl] at h
    injection h with h2
    subst h2
    rfl
  by_cases h3 : n = 0x0003
  · subst h3
    rw [show Status.from_u16 0x0003 = some Status.ValueTooLarge from rfl] at h
    injection h with h2
    subst h2
    rfl
  by_cases h4 : n = 0x0004
  · subst h4
    rw [show Status.from_u16 0x0004 = some Status.InvalidArguments from rfl] at h
    injection h with h2
    subst h2
    rfl
  by_cases h5 : n = 0x0005
  · subst h5
    rw [show Status.from_u16 0x0005 = some Status.ItemNotStored from rfl] at h
    injection h with h2
    subst h2
    rfl
  by_cases h6 : n = 0x0006
  · subst h6
    rw [show Status.from_u16 0x0006 = some Status.IncrDecrOnNonNumericValue from rfl] at h
    injection h with h2
    subst h2
    rfl
  by_cases h7 : n = 0x0007
  · subst h7
    rw [show Status.from_u16 0x0007 = some Status.VBucketBelongsToOtherServer from rfl] at h
    injection h with h2
    subst h2
    rfl
  by_cases h8 : n = 0x0008
  · subst h8
    rw [show Status.from_u16 0x0008 = some Status.AuthenticationError from rfl] at h
    injection h with h2
    subst h2
    rfl
  by_cases h9 : n = 0x0009
  · subst h9
    rw [show Status.from_u16 0x0009 = some Status.AuthenticationContinue from rfl] at h
    injection h with h2
    subst h2
    rfl
  by_cases h10 : n = 0x0081
  · subst h10
    rw [show Status.from_u16 0x0081 = some Status.UnknownCommand from rfl] at h
    injection h with h2
    subst h2
    rfl
  by_cases h11 : n = 0x0082
  · subst h11
    rw [show Status.from_u16 0x0082 = some Status.OutOfMemory from rfl] at h
    injection h with h2
    subst h2
    rfl
  by_cases h12 : n = 0x0083
  · subst h12
    rw [show Status.from_u16 0x0083 = some Status.NotSupported from rfl] at h
    injection h with h2
    subst h2
    rfl
  by_cases h13 : n = 0x0084
  · subst h13
    rw [show Status.from_u16 0x0084 = some Status.InternalError from rfl] at h
    injection h with h2
    subst h2
    rfl
  by_cases h14 : n = 0x0085
  · subst h14
    rw [show Status.from_u16 0x0085 = some Status.Busy from rfl] at h
    injection h with h2
    subst h2
    rfl
  by_cases h15 : n = 0x0086
  · subst h15
    rw [show Status.from_u16 0x0086 = some Status.TemporaryFailure from rfl] at h
    injection h with h2
    subst h2
    rfl
  by_cases h16 : n = 0x0020
  · subst h16
    rw [show Status.from_u16 0x0020 = some Status.AuthenticationRequired from rfl] at h
    injection h with h2
    subst h2
    rfl
  by_cases h17 : n = 0x0021
  · subst h17
    rw [show Status.from_u16 0x0021 = some Status.AuthenticationFurtherStepRequired from rfl] at h
    injection h with h2
    subst h2
    rfl
  simp only [Status.from_u16, if_neg h0, if_neg h1, if_neg h2, if_neg h3, if_neg h4, if_neg h5, if_neg h6, if_neg h7, if_neg h8, if_neg h9, if_neg h10, if_neg h11, if_neg h12, if_neg h13, if_neg h14, if_neg h15, if_neg h16, if_neg h17] at h
  exact Option.noConfusion h

/-- Command.from_u8 is a right inverse: a recognized code maps back to itself. -/
theorem Command.to_u8_from_u8 (n : Nat) (x : Command)
    (h : Command.from_u8 n = some x) : x.to_u8 = n := by
  by_cases h0 : n = 0x00
  · subst h0
    rw [show Command.from_u8 0x00 = some Command.Get from rfl] at h
    injection h with h2
    subst h2
    rfl
  by_cases h1 : n = 0x01
  · subst h1
    rw [show Command.from_u8 0x01 = some Command.Set from rfl] at h
    injection h with h2
    subst h2
    rfl
  by_cases h2 : n = 0x02
  · subst h2
    rw [show Command.from_u8 0x02 = some Command.Add from rfl] at h
    injection h with h2
    subst h2
    rfl
  by_cases h3 : n = 0x03
  · subst h3
    rw [show Command.from_u8 0x03 = some Command.Replace from rfl] at h
    injection h with h2
    subst h2
    rfl
  by_cases h4 : n = 0x04
  · subst h4
    rw [show Command.from_u8 0x04 = some Command.Delete from rfl] at h
    injection h with h2
    subst h2
    rfl
  by_cases h5 : n = 0x05
  · subst h5
    rw [show Command.from_u8 0x05 = some Command.Increment from rfl] at h
    injection h with h2
    subst h2
    rfl
  by_cases h6 : n = 0x06
  · subst h6
    rw [show Command.from_u8 0x06 = some Command.Decrement from rfl] at h
    injection h with h2
    subst h2
    rfl
  by_cases h7 : n = 0x07
  · subst h7
    rw [show Command.from_u8 0x07 = some Command.Quit from rfl] at h
    injection h with h2
    subst h2
    rfl
  by_cases h8 : n = 0x08
  · subst h8
    rw [show Command.from_u8 0x08 = some Command.Flush from rfl] at h
    injection h with h2
    subst h2
    rfl
  by_cases h9 : n = 0x09
  · subst h9
    rw [show Command.from_u8 0x09 = some Command.GetQuietly from rfl] at h
    injection h with h2
    subst h2
    rfl
  by_cases h10 : n = 0x0A
  · subst h10
    rw [show Command.from_u8 0x0A = some Command.Noop from rfl] at h
    injection h with h2
    subst h2
    rfl
  by_cases h11 : n = 0x0B
  · subst h11
    rw [show Command.from_u8 0x0B = some Command.Version from rfl] at h
    injection h with h2
    subst h2
    rfl
  by_cases h12 : n = 0x0C
  · subst h12
    rw [show Command.from_u8 0x0C = some Command.GetKey from rfl] at h
    injection h with h2
    subst h2
    rfl
  by_cases h13 : n = 0x0D
  · subst h13
    rw [show Command.from_u8 0x0D = some Command.GetKeyQuietly from rfl] at h
    injection h with h2
    subst h2
    rfl
  by_cases h14 : n = 0x0E
  · subst h14
    rw [show Command.from_u8 0x0E = some Command.Append from rfl] at h
    injection h with h2
    subst h2
    rfl
  by_cases h15 : n = 0x0F
  · subst h15
    rw [show Command.from_u8 0x0F = some Command.Prepend from rfl] at h
    injection h with h2
    subst h2
    rfl
  by_cases h16 : n = 0x10
  · subst h16
    rw [show Command.from_u8 0x10 = some Command.Stat from rfl] at h
    injection h with h2
    subst h2
    rfl
  by_cases h17 : n = 0x11
  · subst h17
    rw [show Command.from_u8 0x11 = some Command.SetQuietly from rfl] at h
    injection h with h2
    subst h2
    rfl
  by_cases h18 : n = 0x12
  · subst h18
    rw [show Command.from_u8 0x12 = some Command.AddQuietly from rfl] at h
    injection h with h2
    subst h2
    rfl
  by_cases h19 : n = 0x13
  · subst h19
    rw [show Command.from_u8 0x13 = some Command.ReplaceQuietly from rfl] at h
    injection h with h2
    subst h2
    rfl
  by_cases h20 : n = 0x14
  · subst h20
    rw [show Command.from_u8 0x14 = some Command.DeleteQuietly from rfl] at h
    injection h with h2
    subst h2
    rfl
  by_cases h21 : n = 0x15
  · subst h21
    rw [show Command.from_u8 0x15 = some Command.IncrementQuietly from rfl] at h
    injection h with h2
    subst h2
    rfl
  by_cases h22 : n = 0x16
  · subst h22
    rw [show Command.from_u8 0x16 = some Command.DecrementQuietly from rfl] at h
    injection h with h2
    subst h2
    rfl
  by_cases h23 : n = 0x17
  · subst h23
    rw [show Command.from_u8 0x17 = some Command.QuitQuietly from rfl] at h
    injection h with h2
    subst h2
    rfl
  by_cases h24 : n = 0x18
  · subst h24
    rw [show Command.from_u8 0x18 = some Command.FlushQuietly from rfl] at h
    injection h with h2
    subst h2
    rfl
  by_cases h25 : n = 0x19
  · subst h25
    rw [show Command.from_u8 0x19 = some Command.AppendQuietly from rfl] at h
    injection h with h2
    subst h2
    rfl
  by_cases h26 : n = 0x1A
  · subst h26
    rw [show Command.from_u8 0x1A = some Command.PrependQuietly from rfl] at h
    injection h with h2
    subst h2
    rfl
  by_cases h27 : n = 0x1B
  · subst h27
    rw [show Command.from_u8 0x1B = some Command.Verbosity from rfl] at h
    injection h with h2
    subst h2
    rfl
  by_cases h28 : n = 0x1C
  · subst h28
    rw [show Command.from_u8 0x1C = some Command.Touch from rfl] at h
    injection h with h2
    subst h2
    rfl
  by_cases h29 : n = 0x1D
  · subst h29
    rw [show Command.from_u8 0x1D = some Command.GetAndTouch from rfl] at h
    injection h with h2
    subst h2
    rfl
  by_cases h30 : n = 0x1E
  · subst h30
    rw [show Command.from_u8 0x1E = some Command.GetAndTouchQuietly from rfl] at h
    injection h with h2
    subst h2
    rfl
  by_cases h31 : n = 0x20
  · subst h31
    rw [show Command.from_u8 0x20 = some Command.SaslListMechanisms from rfl] at h
    injection h with h2
    subst h2
    rfl
  by_cases h32 : n = 0x21
  · subst h32
    rw [show Command.from_u8 0x21 = some Command.SaslAuthenticate from rfl] at h
    injection h with h2
    subst h2
    rfl
  by_cases h33 : n = 0x22
  · subst h33
    rw [show Command.from_u8 0x22 = some Command.SaslStep from rfl] at h
    injection h with h2
    subst h2
    rfl
  by_cases h34 : n = 0x30
  · subst h34
    rw [show Command.from_u8 0x30 = some Command.RGet from rfl] at h
    injection h with h2
    subst h2
    rfl
  by_cases h35 : n = 0x31
  · subst h35
    rw [show Command.from_u8 0x31 = some Command.RSet from rfl] at h
    injection h with h2
    subst h2
    rfl
  by_cases h36 : n = 0x32
  · subst h36
    rw [show Command.from_u8 0x32 = some Command.RSetQuietly from rfl] at h
    injection h with h2
    subst h2
    rfl
  by_cases h37 : n = 0x33
  · subst h37
    rw [show Command.from_u8 0x33 = some Command.RAppend from rfl] at h
    injection h with h2
    subst h2
    rfl
  by_cases h38 : n = 0x34
  · subst h38
    rw [show Command.from_u8 0x34 = some Command.RAppendQuietly from rfl] at h
    injection h with h2
    subst h2
    rfl
  by_cases h39 : n = 0x35
  · subst h39
    rw [show Command.from_u8 0x35 = some Command.RPrepend from rfl] at h
    injection h with h2
    subst h2
    rfl
  by_cases h40 : n = 0x36
  · subst h40
    rw [show Command.from_u8 0x36 = some Command.RPrependQuietly from rfl] at h
    injection h with h2
    subst h2
    rfl
  by_cases h41 : n = 0x37
  · subst h41
    rw [show Command.from_u8 0x37 = some Command.RDelete from rfl] at h
    injection h with h2
    subst h2
    rfl
  by_cases h42 : n = 0x38
  · subst h42
    rw [show Command.from_u8 0x38 = some Command.RDeleteQuietly from rfl] at h
    injection h with h2
    subst h2
    rfl
  by_cases h43 : n = 0x39
  · subst h43
    rw [show Command.from_u8 0x39 = some Command.RIncrement from rfl] at h
    injection h with h2
    subst h2
    rfl
  by_cases h44 : n = 0x3A
  · subst h44
    rw [show Command.from_u8 0x3A = some Command.RIncrementQuietly from rfl] at h
    injection h with h2
    subst h2
    rfl
  by_cases h45 : n = 0x3B
  · subst h45
    rw [show Command.from_u8 0x3B = some Command.RDecrement from rfl] at h
    injection h with h2
    subst h2
    rfl
  by_cases h46 : n = 0x3C
  · subst h46
    rw [show Command.from_u8 0x3C = some Command.RDecrementQuietly from rfl] at h
    injection h with h2
    subst h2
    rfl
  by_cases h47 : n = 0x3D
  · subst h47
    rw [show Command.from_u8 0x3D = some Command.SetVBucket from rfl] at h
    injection h with h2
    subst h2
    rfl
  by_cases h48 : n = 0x3E
  · subst h48
    rw [show Command.from_u8 0x3E = some Command.GetVBucket from rfl] at h
    injection h with h2
    subst h2
    rfl
  by_cases h49 : n = 0x3F
  · subst h49
    rw [show Command.from_u8 0x3F = some Command.DelVBucket from rfl] at h
    injection h with h2
    subst h2
    rfl
  by_cases h50 : n = 0x40
  · subst h50
    rw [show Command.from_u8 0x40 = some Command.TapConnect from rfl] at h
    injection h with h2
    subst h2
    rfl
  by_cases h51 : n = 0x41
  · subst h51
    rw [show Command.from_u8 0x41 = some Command.TapMutation from rfl] at h
    injection h with h2
    subst h2
    rfl
  by_cases h52 : n = 0x42
  · subst h52
    rw [show Command.from_u8 0x42 = some Command.TapDelete from rfl] at h
    injection h with h2
    subst h2
    rfl
  by_cases h53 : n = 0x43
  · subst h53
    rw [show Command.from_u8 0x43 = some Command.TapFlush from rfl] at h
    injection h with h2
    subst h2
    rfl
  by_cases h54 : n = 0x44
  · subst h54
    rw [show Command.from_u8 0x44 = some Command.TapOpaque from rfl] at h
    injection h with h2
    subst h2
    rfl
  by_cases h55 : n = 0x45
  · subst h55
    rw [show Command.from_u8 0x45 = some Command.TapVBucketSet from rfl] at h
    injection h with h2
    subst h2
    rfl
  by_cases h56 : n = 0x46
  · subst h56
    rw [show Command.from_u8 0x46 = some Command.TapCheckpointStart from rfl] at h
    injection h with h2
    subst h2
    rfl
  by_cases h57 : n = 0x47
  · subst h57
    rw [show Command.from_u8 0x47 = some Command.TapCheckpointEnd from rfl] at h
    injection h with h2
    subst h2
    rfl
  simp only [Command.from_u8, if_neg h0, if_neg h1, if_neg h2, if_neg h3, if_neg h4, if_neg h5, if_neg h6, if_neg h7, if_neg h8, if_neg h9, if_neg h10, if_neg h11, if_neg h12, if_neg h13, if_neg h14, if_neg h15, if_neg h16, if_neg h17, if_neg h18, if_neg h19, if_neg h20, if_neg h21, if_neg h22, if_neg h23, if_neg h24, if_neg h25, if_neg h26, if_neg h27, if_neg h28, if_neg h29, if_neg h30, if_neg h31, if_neg h32, if_neg h33, if_neg h34, if_neg h35, if_neg h36, if_neg h37, if_neg h38, if_neg h39, if_neg h40, if_neg h41, if_neg h42, if_neg h43, if_neg h44, if_neg h45, if_neg h46, if_neg h47, if_neg h48, if_neg h49, if_neg h50, if_neg h51, if_neg h52, if_neg h53, if_neg h54, if_neg h55, if_neg h56, if_neg h57] at h
  exact Option.noConfusion h

end Memcached

namespace Memcached

/-- Reading a request header whose opcode byte is unrecognized is a decode
error (the source returns an Invalid command io::Error). -/
theorem RequestHeader.request_unknown_command_error (n : Nat) (rest : List Nat)
    (h : Command.from_u8 n = none) :
    RequestHeader.read_from (0x80 :: n :: rest) = .error .invalidCommand := by
  simp [RequestHeader.read_from, readByte, h]

/-- Reading a response header whose opcode byte is unrecognized is a decode
error. -/
theorem ResponseHeader.response_unknown_command_error (n : Nat) (rest : List Nat)
    (h : Command.from_u8 n = none) :
    ResponseHeader.read_from (0x81 :: n :: rest) = .error .invalidCommand := by
  simp [ResponseHeader.read_from, readByte, h]

/-- Reading a response header whose status code is unrecognized is a decode
error (here with opcode 0x00 = Get and data type 0x00 = RawBytes). -/
theorem ResponseHeader.read_from_unknown_status (k1 k0 el s1 s0 : Nat)
    (rest : List Nat) (h : Status.from_u16 (s1 * 256 + s0) = none) :
    ResponseHeader.read_from (0x81 :: 0x00 :: k1 :: k0 :: el :: 0x00 :: s1 :: s0 :: rest)
      = .error .invalidStatus := by
  simp [ResponseHeader.read_from, readByte, readU16, Command.from_u8,
    DataType.from_u8, h]

/-- **C7**: the opcode and status mappings are total and mutually inverse,
the named wire constants have their fixed values, and an unrecognized
code encountered while decoding a header is a decode error, never a
silent default. -/
theorem C7_code_mappings :
    (∀ s : Status, Status.from_u16 s.to_u16 = some s)
    ∧ (∀ c : Command, Command.from_u8 c.to_u8 = some c)
    ∧ (∀ n s, Status.from_u16 n = some s → s.to_u16 = n)
    ∧ (∀ n c, Command.from_u8 n = some c → c.to_u8 = n)
    ∧ Status.NoError.to_u16 = 0x0000
    ∧ Status.KeyNotFound.to_u16 = 0x0001
    ∧ Command.Get.to_u8 = 0x00
    ∧ Command.Set.to_u8 = 0x01
    ∧ Command.Quit.to_u8 = 0x07
    ∧ Command.Noop.to_u8 = 0x0A
    ∧ Command.GetKey.to_u8 = 0x0C
    ∧ Command.SetQuietly.to_u8 = 0x11
    ∧ Command.SaslListMechanisms.to_u8 = 0x20
    ∧ Command.SaslAuthenticate.to_u8 = 0x21
    ∧ (∀ n rest, Command.from_u8 n = none →
        RequestHeader.read_from (0x80 :: n :: rest) = .error .invalidCommand)
    ∧ (∀ n rest, Command.from_u8 n = none →
        ResponseHeader.read_from (0x81 :: n :: rest) = .error .invalidCommand)
    ∧ (∀ k1 k0 el s1 s0 rest, Status.from_u16 (s1 * 256 + s0) = none →
        ResponseHeader.read_from
          (0x81 :: 0x00 :: k1 :: k0 :: el :: 0x00 :: s1 :: s0 :: rest)
          = .error .invalidStatus) :=
  ⟨Status.from_u16_to_u16, Command.from_u8_to_u8,
   Status.to_u16_from_u16, Command.to_u8_from_u8,
   rfl, rfl, rfl, rfl, rfl, rfl, rfl, rfl, rfl, rfl,
   RequestHeader.request_unknown_command_error,
   ResponseHeader.response_unknown_command_error,
   ResponseHeader.read_from_unknown_status⟩

/-- Witness for C7: the mapping facts evaluated at concrete codes, and the
decode error on the unrecognized opcode 0xFF and status 0xFFFF. -/
theorem C7_code_mappings_witness :
    Status.from_u16 (Status.KeyExists.to_u16) = some Status.KeyExists
    ∧ Command.from_u8 (Command.Touch.to_u8) = some Command.Touch
    ∧ Status.TemporaryFailure.to_u16 = 0x0086
    ∧ Command.Delete.to_u8 = 0x04
    ∧ RequestHeader.read_from [0x80, 0xFF] = .error .invalidCommand
    ∧ ResponseHeader.read_from
        [0x81, 0x00, 0, 0, 0, 0x00, 0xFF, 0xFF] = .error .invalidStatus := by
  obtain ⟨a1, a2, a3, a4, -, -, -, -, -, -, -, -, -, -, d1, -, d3⟩ :=
    C7_code_mappings
  exact ⟨a1 Status.KeyExists, a2 Command.Touch,
    a3 0x0086 Status.TemporaryFailure (by decide),
    a4 0x04 Command.Delete (by decide),
    d1 0xFF [] (by decide),
    d3 0 0 0 0xFF 0xFF [] (by decide)⟩

end Memcached

namespace Memcached

/-- **C10**: decoding a response packet is total only under the
precondition body_len ≥ extras_len + key_len.  For every in-range header
whose total body length is smaller than extras length plus key length,
ResponsePacket.read_from hits the split_to panic (modelled as the
panicSplit outcome) whatever bytes follow the header; and whenever the
precondition holds the panic branch is unreachable (decoding returns a
packet or an I/O-style error, never panicSplit). -/
theorem C10_response_decode_split (h : ResponseHeader) (rest : List Nat)
    (hk : h.key_len < 65536) (he : h.extra_len < 256)
    (hb : h.body_len < 4294967296) (ho : h.opq < 4294967296)
    (hc : h.cas < 18446744073709551616) :
    (h.body_len < h.extra_len + h.key_len →
      ResponsePacket.read_from (h.write_to ++ rest) = .error .panicSplit)
    ∧ (h.extra_len + h.key_len ≤ h.body_len →
      ResponsePacket.read_from (h.write_to ++ rest) ≠ .error .panicSplit) := by
  have hdr := ResponseHeader.roundtrip_response_header h rest hk he hb ho hc
  constructor
  · intro hlt
    simp only [ResponsePacket.read_from, hdr]
    by_cases h1 : h.extra_len > h.body_len
    · rw [if_pos h1]
    · rw [if_neg h1, if_pos (by omega)]
  · intro hge
    simp only [ResponsePacket.read_from, hdr]
    rw [if_neg (by omega), if_neg (by omega)]
    cases hE : readN h.extra_len rest with
    | none => simp
    | some pE =>
      obtain ⟨extra, s2⟩ := pE
      cases hK : readN h.key_len s2 with
      | none => simp [hK]
      | some pK =>
        obtain ⟨key, s3⟩ := pK
        cases hV : readN (h.body_len - h.extra_len - h.key_len) s3 with
        | none => simp [hK, hV]
        | some pV =>
          obtain ⟨value, s4⟩ := pV
          simp [hK, hV]

/-- Witness for C10: a header with body_len 0 but extras_len 2 and
key_len 1 panics; the same header with body_len 9 does not. -/
theorem C10_response_decode_split_witness :
    ResponsePacket.read_from
      ((⟨.Get, 1, 2, .RawBytes, .NoError, 0, 0, 0⟩ : ResponseHeader).write_to ++ [])
      = .error .panicSplit
    ∧ ResponsePacket.read_from
      ((⟨.Get, 1, 2, .RawBytes, .NoError, 9, 0, 0⟩ : ResponseHeader).write_to ++ [])
      ≠ .error .panicSplit := by
  constructor
  · exact (C10_response_decode_split ⟨.Get, 1, 2, .RawBytes, .NoError, 0, 0, 0⟩ []
      (by norm_num) (by norm_num) (by norm_num) (by norm_num) (by norm_num)).1
      (by norm_num)
  · exact (C10_response_decode_split ⟨.Get, 1, 2, .RawBytes, .NoError, 9, 0, 0⟩ []
      (by norm_num) (by norm_num) (by norm_num) (by norm_num) (by norm_num)).2
      (by norm_num)

end Memcached

namespace Memcached

/-! ### Single-connection protocol driver (src/proto/binary.rs)

The driver's request side is blocking I/O (write packet, flush); its
observable logic is how it consumes the stream of decoded responses and
maps statuses to results.  We model an operation's response processing
as a function of the fresh opaque token the driver drew (random in the
source) and the list of responses subsequently decoded from the stream.
A missing response (exhausted stream) stands for the I/O error that
read_from would return. -/

/-- binary.rs Error: a typed protocol error carrying the status, its
description, and an optional detail string. -/
structure Error where
  status : Status
  desc : String
  detail : Option String
  deriving DecidableEq, Repr

/-- Error::from_status. -/
def Error.from_status (status : Status) (detail : Option String) : Error :=
  { status := status, desc := status.desc, detail := detail }

/-- proto::Error, the library-level error sum.  Modelled from the spec:
the current proto/mod.rs is not under src (only a historical snapshot
is); its shape follows the error taxonomy of the spec and the uses in
binary.rs (io errors, binary protocol errors wrapping binary.rs Error
via From, and other decode errors with desc/detail). -/
inductive ProtoError where
  | IoError
  | BinaryProtoError (err : Error)
  | OtherError (desc : String) (detail : Option String)
  deriving DecidableEq, Repr

/-- AuthResponse.  Modelled from the spec: the current proto/mod.rs is
not under src; the three outcomes (Succeeded, Failed, Continue with a
payload) follow the spec's auth state machine and the uses in
binary.rs auth_start/auth_continue. -/
inductive AuthResponse where
  | Succeeded
  | Failed
  | Continue (payload : List Nat)
  deriving DecidableEq, Repr

/-- The response-draining loop shared by every simple operation: read a
response, and keep reading while its opaque differs from the one sent;
none models the I/O error when the stream is exhausted first. -/
def recvMatching (opq : Nat) : List ResponsePacket → Option ResponsePacket
  | [] => none
  | r :: rest => if r.header.opq = opq then some r else recvMatching opq rest

/-- BinaryProto::set response processing (binary.rs lines 104-138). -/
def BinaryProto.set (opq : Nat) (resps : List ResponsePacket) :
    Except ProtoError Unit :=
  match recvMatching opq resps with
  | none => .error .IoError
  | some resp =>
    if resp.header.status = .NoError then .ok ()
    else .error (.BinaryProtoError (Error.from_status resp.header.status none))

/-- BinaryProto::add response processing. -/
def BinaryProto.add (opq : Nat) (resps : List ResponsePacket) :
    Except ProtoError Unit :=
  match recvMatching opq resps with
  | none => .error .IoError
  | some resp =>
    if resp.header.status = .NoError then .ok ()
    else .error (.BinaryProtoError (Error.from_status resp.header.status none))

/-- BinaryProto::delete response processing. -/
def BinaryProto.delete (opq : Nat) (resps : List ResponsePacket) :
    Except ProtoError Unit :=
  match recvMatching opq resps with
  | none => .error .IoError
  | some resp =>
    if resp.header.status = .NoError then .ok ()
    else .error (.BinaryProtoError (Error.from_status resp.header.status none))

/-- BinaryProto::replace response processing. -/
def BinaryProto.replace (opq : Nat) (resps : List ResponsePacket) :
    Except ProtoError Unit :=
  match recvMatching opq resps with
  | none => .error .IoError
  | some resp =>
    if resp.header.status = .NoError then .ok ()
    else .error (.BinaryProtoError (Error.from_status resp.header.status none))

/-- BinaryProto::get response processing: on NoError, read a u32 flags
field from the extras and return (value, flags). -/
def BinaryProto.get (opq : Nat) (resps : List ResponsePacket) :
    Except ProtoError (List Nat × Nat) :=
  match recvMatching opq resps with
  | none => .error .IoError
  | some resp =>
    if resp.header.status = .NoError then
      match readU32 resp.extra with
      | none => .error .IoError
      | some (flags, _) => .ok (resp.value, flags)
    else .error (.BinaryProtoError (Error.from_status resp.header.status none))

/-- BinaryProto::getk response processing. -/
def BinaryProto.getk (opq : Nat) (resps : List ResponsePacket) :
    Except ProtoError (List Nat × List Nat × Nat) :=
  match recvMatching opq resps with
  | none => .error .IoError
  | some resp =>
    if resp.header.status = .NoError then
      match readU32 resp.extra with
      | none => .error .IoError
      | some (flags, _) => .ok (resp.key, resp.value, flags)
    else .error (.BinaryProtoError (Error.from_status resp.header.status none))

/-- BinaryProto::increment response processing: on NoError, the new
counter value is a u64 read from the response value. -/
def BinaryProto.increment (opq : Nat) (resps : List ResponsePacket) :
    Except ProtoError Nat :=
  match recvMatching opq resps with
  | none => .error .IoError
  | some resp =>
    if resp.header.status = .NoError then
      match readU64 resp.value with
      | none => .error .IoError
      | some (v, _) => .ok v
    else .error (.BinaryProtoError (Error.from_status resp.header.status none))

/-- BinaryProto::decrement response processing. -/
def BinaryProto.decrement (opq : Nat) (resps : List ResponsePacket) :
    Except ProtoError Nat :=
  match recvMatching opq resps with
  | none => .error .IoError
  | some resp =>
    if resp.header.status = .NoError then
      match readU64 resp.value with
      | none => .error .IoError
      | some (v, _) => .ok v
    else .error (.BinaryProtoError (Error.from_status resp.header.status none))

/-- BinaryProto::append response processing. -/
def BinaryProto.append (opq : Nat) (resps : List ResponsePacket) :
    Except ProtoError Unit :=
  match recvMatching opq resps with
  | none => .error .IoError
  | some resp =>
    if resp.header.status = .NoError then .ok ()
    else .error (.BinaryProtoError (Error.from_status resp.header.status none))

/-- BinaryProto::prepend response processing. -/
def BinaryProto.prepend (opq : Nat) (resps : List ResponsePacket) :
    Except ProtoError Unit :=
  match recvMatching opq resps with
  | none => .error .IoError
  | some resp =>
    if resp.header.status = .NoError then .ok ()
    else .error (.BinaryProtoError (Error.from_status resp.header.status none))

/-- BinaryProto::touch response processing. -/
def BinaryProto.touch (opq : Nat) (resps : List ResponsePacket) :
    Except ProtoError Unit :=
  match recvMatching opq resps with
  | none => .error .IoError
  | some resp =>
    if resp.header.status = .NoError then .ok ()
    else .error (.BinaryProtoError (Error.from_status resp.header.status none))

/-- BinaryProto::set_cas response processing: on NoError, return the new
CAS value from the response header. -/
def BinaryProto.set_cas (opq : Nat) (resps : List ResponsePacket) :
    Except ProtoError Nat :=
  match recvMatching opq resps with
  | none => .error .IoError
  | some resp =>
    if resp.header.status = .NoError then .ok resp.header.cas
    else .error (.BinaryProtoError (Error.from_status resp.header.status none))

/-- BinaryProto::auth_start response processing (binary.rs lines
1305-1334): the four-way status mapping. -/
def BinaryProto.auth_start (opq : Nat) (resps : List ResponsePacket) :
    Except ProtoError AuthResponse :=
  match recvMatching opq resps with
  | none => .error .IoError
  | some resp =>
    if resp.header.status = .AuthenticationFurtherStepRequired then
      .ok (.Continue resp.value)
    else if resp.header.status = .NoError then .ok .Succeeded
    else if resp.header.status = .AuthenticationRequired then .ok .Failed
    else .error (.BinaryProtoError (Error.from_status resp.header.status none))

/-- BinaryProto::auth_continue response processing (binary.rs lines
1336-1365): identical status mapping, for the SaslStep request. -/
def BinaryProto.auth_continue (opq : Nat) (resps : List ResponsePacket) :
    Except ProtoError AuthResponse :=
  match recvMatching opq resps with
  | none => .error .IoError
  | some resp =>
    if resp.header.status = .AuthenticationFurtherStepRequired then
      .ok (.Continue resp.value)
    else if resp.header.status = .NoError then .ok .Succeeded
    else if resp.header.status = .AuthenticationRequired then .ok .Failed
    else .error (.BinaryProtoError (Error.from_status resp.header.status none))

end Memcached

namespace Memcached

/-- Draining the stream skips any prefix of responses whose opaque does
not match the one just sent. -/
theorem recvMatching_append (opq : Nat) (pre rest : List ResponsePacket)
    (hpre : ∀ p ∈ pre, p.header.opq ≠ opq) :
    recvMatching opq (pre ++ rest) = recvMatching opq rest := by
  induction pre with
  | nil => rfl
  | cons p pre ih =>
    have hp : p.header.opq ≠ opq := hpre p (List.mem_cons_self p pre)
    simp only [List.cons_append, recvMatching, if_neg hp]
    exact ih (fun q hq => hpre q (List.mem_cons_of_mem p hq))

/-- **C3** (amended): for every simple operation, when the matching-opaque
response carries a non-NoError status, the operation returns a typed
protocol error carrying that status and its description — but the detail
field is always none: the response value is never decoded into the error
detail.  (The claim's assertion that the UTF-8 error-detail text from the
response value is carried is the part the counterexample refutes.) -/
theorem C3_error_detail (opq : Nat) (resps : List ResponsePacket)
    (resp : ResponsePacket) (hm : recvMatching opq resps = some resp)
    (hs : resp.header.status ≠ .NoError) :
    BinaryProto.set opq resps
      = .error (.BinaryProtoError ⟨resp.header.status, resp.header.status.desc, none⟩)
    ∧ BinaryProto.add opq resps
      = .error (.BinaryProtoError ⟨resp.header.status, resp.header.status.desc, none⟩)
    ∧ BinaryProto.delete opq resps
      = .error (.BinaryProtoError ⟨resp.header.status, resp.header.status.desc, none⟩)
    ∧ BinaryProto.replace opq resps
      = .error (.BinaryProtoError ⟨resp.header.status, resp.header.status.desc, none⟩)
    ∧ BinaryProto.get opq resps
      = .error (.BinaryProtoError ⟨resp.header.status, resp.header.status.desc, none⟩)
    ∧ BinaryProto.getk opq resps
      = .error (.BinaryProtoError ⟨resp.header.status, resp.header.status.desc, none⟩)
    ∧ BinaryProto.increment opq resps
      = .error (.BinaryProtoError ⟨resp.header.status, resp.header.status.desc, none⟩)
    ∧ BinaryProto.decrement opq resps
      = .error (.BinaryProtoError ⟨resp.header.status, resp.header.status.desc, none⟩)
    ∧ BinaryProto.append opq resps
      = .error (.BinaryProtoError ⟨resp.header.status, resp.header.status.desc, none⟩)
    ∧ BinaryProto.prepend opq resps
      = .error (.BinaryProtoError ⟨resp.header.status, resp.header.status.desc, none⟩)
    ∧ BinaryProto.touch opq resps
      = .error (.BinaryProtoError ⟨resp.header.status, resp.header.status.desc, none⟩) := by
  simp [BinaryProto.set, BinaryProto.add, BinaryProto.delete,
    BinaryProto.replace, BinaryProto.get, BinaryProto.getk,
    BinaryProto.increment, BinaryProto.decrement, BinaryProto.append,
    BinaryProto.prepend, BinaryProto.touch, hm, hs, Error.from_status]

/-- Witness for C3: the amended behavior at a concrete KeyExists response
with opaque 3. -/
theorem C3_error_detail_witness :
    BinaryProto.get 3
      [⟨⟨.Get, 0, 0, .RawBytes, .KeyExists, 0, 3, 0⟩, [], [], []⟩]
      = .error (.BinaryProtoError ⟨.KeyExists, "key exists", none⟩)
    ∧ BinaryProto.set 3
      [⟨⟨.Get, 0, 0, .RawBytes, .KeyExists, 0, 3, 0⟩, [], [], []⟩]
      = .error (.BinaryProtoError ⟨.KeyExists, "key exists", none⟩) := by
  have h := C3_error_detail 3
    [⟨⟨.Get, 0, 0, .RawBytes, .KeyExists, 0, 3, 0⟩, [], [], []⟩]
    ⟨⟨.Get, 0, 0, .RawBytes, .KeyExists, 0, 3, 0⟩, [], [], []⟩
    (by simp [recvMatching]) (by simp)
  exact ⟨h.2.2.2.2.1, h.1⟩

/-- **C3** counterexample: a KeyNotFound response whose value holds the
UTF-8 text "not found" (bytes 110,111,116,32,102,111,117,110,100).  The
claim says get returns an error carrying both the status and that detail
text; the code builds the error with detail None, never decoding the
response value. -/
theorem C3_counterexample :
    BinaryProto.get 7
      [⟨⟨.Get, 0, 0, .RawBytes, .KeyNotFound, 9, 7, 0⟩, [], [],
        [110, 111, 116, 32, 102, 111, 117, 110, 100]⟩]
      = .error (.BinaryProtoError ⟨.KeyNotFound, "key not found", none⟩)
    ∧ (Error.mk .KeyNotFound "key not found" none).detail ≠ some "not found" := by
  constructor
  · rfl
  · simp

/-- **C4**: for every simple operation, a stream that first yields
responses whose opaque differs from the one sent and then a matching
response produces the same result as the stream starting at the match:
every mismatching response is discarded without error, and the first
matching response is the one consumed. -/
theorem C4_discard_mismatches (opq : Nat) (pre rest : List ResponsePacket)
    (r : ResponsePacket) (hpre : ∀ p ∈ pre, p.header.opq ≠ opq)
    (hr : r.header.opq = opq) :
    recvMatching opq (pre ++ r :: rest) = some r
    ∧ BinaryProto.set opq (pre ++ r :: rest) = BinaryProto.set opq (r :: rest)
    ∧ BinaryProto.add opq (pre ++ r :: rest) = BinaryProto.add opq (r :: rest)
    ∧ BinaryProto.delete opq (pre ++ r :: rest) = BinaryProto.delete opq (r :: rest)
    ∧ BinaryProto.replace opq (pre ++ r :: rest) = BinaryProto.replace opq (r :: rest)
    ∧ BinaryProto.get opq (pre ++ r :: rest) = BinaryProto.get opq (r :: rest)
    ∧ BinaryProto.getk opq (pre ++ r :: rest) = BinaryProto.getk opq (r :: rest)
    ∧ BinaryProto.increment opq (pre ++ r :: rest) = BinaryProto.increment opq (r :: rest)
    ∧ BinaryProto.decrement opq (pre ++ r :: rest) = BinaryProto.decrement opq (r :: rest)
    ∧ BinaryProto.append opq (pre ++ r :: rest) = BinaryProto.append opq (r :: rest)
    ∧ BinaryProto.prepend opq (pre ++ r :: rest) = BinaryProto.prepend opq (r :: rest)
    ∧ BinaryProto.touch opq (pre ++ r :: rest) = BinaryProto.touch opq (r :: rest)
    ∧ BinaryProto.set_cas opq (pre ++ r :: rest) = BinaryProto.set_cas opq (r :: rest) := by
  have hm : recvMatching opq (pre ++ r :: rest) = recvMatching opq (r :: rest) :=
    recvMatching_append opq pre (r :: rest) hpre
  have hm2 : recvMatching opq (r :: rest) = some r := by
    simp [recvMatching, hr]
  refine ⟨hm.trans hm2, ?_, ?_, ?_, ?_, ?_, ?_, ?_, ?_, ?_, ?_, ?_, ?_⟩ <;>
    simp only [BinaryProto.set, BinaryProto.add, BinaryProto.delete,
      BinaryProto.replace, BinaryProto.get, BinaryProto.getk,
      BinaryProto.increment, BinaryProto.decrement, BinaryProto.append,
      BinaryProto.prepend, BinaryProto.touch, BinaryProto.set_cas, hm]

/-- Witness for C4: a mismatching opaque-1 response followed by the
matching opaque-2 response; get returns the value of the matching one. -/
theorem C4_discard_mismatches_witness :
    recvMatching 2
      [⟨⟨.Get, 0, 0, .RawBytes, .NoError, 0, 1, 0⟩, [], [], []⟩,
       ⟨⟨.Get, 0, 0, .RawBytes, .NoError, 0, 2, 0⟩, [0, 0, 0, 0], [], [5]⟩]
      = some ⟨⟨.Get, 0, 0, .RawBytes, .NoError, 0, 2, 0⟩, [0, 0, 0, 0], [], [5]⟩
    ∧ BinaryProto.get 2
      [⟨⟨.Get, 0, 0, .RawBytes, .NoError, 0, 1, 0⟩, [], [], []⟩,
       ⟨⟨.Get, 0, 0, .RawBytes, .NoError, 0, 2, 0⟩, [0, 0, 0, 0], [], [5]⟩]
      = BinaryProto.get 2
        [⟨⟨.Get, 0, 0, .RawBytes, .NoError, 0, 2, 0⟩, [0, 0, 0, 0], [], [5]⟩] := by
  have h := C4_discard_mismatches 2
    [⟨⟨.Get, 0, 0, .RawBytes, .NoError, 0, 1, 0⟩, [], [], []⟩] []
    ⟨⟨.Get, 0, 0, .RawBytes, .NoError, 0, 2, 0⟩, [0, 0, 0, 0], [], [5]⟩
    (by simp) rfl
  exact ⟨h.1, h.2.2.2.2.2.1⟩

/-- **C8**: the auth_start and auth_continue status mapping on the
matching-opaque response: AuthenticationFurtherStepRequired yields
Continue carrying the response value, NoError yields Succeeded,
AuthenticationRequired yields Failed, and any other status yields a typed
protocol error carrying that status. -/
theorem C8_auth_status_mapping (opq : Nat) (resps : List ResponsePacket)
    (resp : ResponsePacket) (hm : recvMatching opq resps = some resp) :
    (resp.header.status = .AuthenticationFurtherStepRequired →
      BinaryProto.auth_start opq resps = .ok (.Continue resp.value)
      ∧ BinaryProto.auth_continue opq resps = .ok (.Continue resp.value))
    ∧ (resp.header.status = .NoError →
      BinaryProto.auth_start opq resps = .ok .Succeeded
      ∧ BinaryProto.auth_continue opq resps = .ok .Succeeded)
    ∧ (resp.header.status = .AuthenticationRequired →
      BinaryProto.auth_start opq resps = .ok .Failed
      ∧ BinaryProto.auth_continue opq resps = .ok .Failed)
    ∧ (resp.header.status ≠ .AuthenticationFurtherStepRequired →
      resp.header.status ≠ .NoError →
      resp.header.status ≠ .AuthenticationRequired →
      BinaryProto.auth_start opq resps
        = .error (.BinaryProtoError ⟨resp.header.status, resp.header.status.desc, none⟩)
      ∧ BinaryProto.auth_continue opq resps
        = .error (.BinaryProtoError ⟨resp.header.status, resp.header.status.desc, none⟩)) := by
  refine ⟨fun h => ?_, fun h => ?_, fun h => ?_, fun h1 h2 h3 => ?_⟩ <;>
    simp_all [BinaryProto.auth_start, BinaryProto.auth_continue, hm,
      Error.from_status]

/-- Witness for C8: a further-step-required response with payload [1, 2]
yields Continue [1, 2] from both auth calls. -/
theorem C8_auth_status_mapping_witness :
    BinaryProto.auth_start 5
      [⟨⟨.SaslAuthenticate, 0, 0, .RawBytes,
        .AuthenticationFurtherStepRequired, 2, 5, 0⟩, [], [], [1, 2]⟩]
      = .ok (.Continue [1, 2])
    ∧ BinaryProto.auth_continue 5
      [⟨⟨.SaslAuthenticate, 0, 0, .RawBytes,
        .AuthenticationFurtherStepRequired, 2, 5, 0⟩, [], [], [1, 2]⟩]
      = .ok (.Continue [1, 2]) := by
  have h := C8_auth_status_mapping 5
    [⟨⟨.SaslAuthenticate, 0, 0, .RawBytes,
      .AuthenticationFurtherStepRequired, 2, 5, 0⟩, [], [], [1, 2]⟩]
    ⟨⟨.SaslAuthenticate, 0, 0, .RawBytes,
      .AuthenticationFurtherStepRequired, 2, 5, 0⟩, [], [], [1, 2]⟩
    (by simp [recvMatching])
  exact h.1 rfl

end Memcached

namespace Memcached

/-! ### Pipelined multi-key operations (binary.rs MultiOperation) -/

/-- HashMap::insert on the result map, as replace-or-append on an
association list keyed by the response key bytes. -/
def insertAssoc (m : List (List Nat × (List Nat × Nat))) (k : List Nat)
    (v : List Nat × Nat) : List (List Nat × (List Nat × Nat)) :=
  match m with
  | [] => [(k, v)]
  | (k0, v0) :: rest =>
    if k0 = k then (k, v) :: rest else (k0, v0) :: insertAssoc rest k v

/-- HashMap::get on the result map. -/
def lookupAssoc (m : List (List Nat × (List Nat × Nat))) (k : List Nat) :
    Option (List Nat × Nat) :=
  match m with
  | [] => none
  | (k0, v0) :: rest => if k0 = k then some v0 else lookupAssoc rest k

/-- get_multi request side (binary.rs lines 708-716): one GetKeyQuietly
request per key, each with opaque 0, followed by the single Noop request
from send_noop with its fresh opaque. -/
def BinaryProto.get_multi_requests (keys : List (List Nat)) (noopOpq : Nat) :
    List RequestPacket :=
  keys.map (fun key =>
    ⟨RequestHeader.from_payload .GetKeyQuietly .RawBytes 0 0 0 key [] [],
     [], key, []⟩)
  ++ [RequestPacket.new .Noop .RawBytes 0 noopOpq 0 [] [] []]

/-- delete_multi request side (binary.rs lines 634-642): one
DeleteQuietly request per key, then the Noop. -/
def BinaryProto.delete_multi_requests (keys : List (List Nat)) (noopOpq : Nat) :
    List RequestPacket :=
  keys.map (fun key =>
    ⟨RequestHeader.from_payload .DeleteQuietly .RawBytes 0 0 0 key [] [],
     [], key, []⟩)
  ++ [RequestPacket.new .Noop .RawBytes 0 noopOpq 0 [] [] []]

/-- get_multi read loop (binary.rs lines 718-734): abort on any
non-NoError status; return the accumulated map when a Noop response is
read; otherwise read the u32 flags from the extras and insert
key to (value, flags). -/
def BinaryProto.get_multi_loop (resps : List ResponsePacket)
    (result : List (List Nat × (List Nat × Nat))) :
    Except ProtoError (List (List Nat × (List Nat × Nat))) :=
  match resps with
  | [] => .error .IoError
  | resp :: rest =>
    if resp.header.status = .NoError then
      if resp.header.command = .Noop then .ok result
      else
        match readU32 resp.extra with
        | none => .error .IoError
        | some (flags, _) =>
          BinaryProto.get_multi_loop rest
            (insertAssoc result resp.key (resp.value, flags))
    else .error (.BinaryProtoError (Error.from_status resp.header.status none))

/-- delete_multi read loop (binary.rs lines 644-655): NoError and
KeyNotFound both pass; return success on a Noop response; any other
status aborts with a typed error. -/
def BinaryProto.delete_multi_loop (resps : List ResponsePacket) :
    Except ProtoError Unit :=
  match resps with
  | [] => .error .IoError
  | resp :: rest =>
    if resp.header.status = .NoError ∨ resp.header.status = .KeyNotFound then
      if resp.header.command = .Noop then .ok ()
      else BinaryProto.delete_multi_loop rest
    else .error (.BinaryProtoError (Error.from_status resp.header.status none))

/-- The (value, flags) contribution of a get_multi response: value bytes
paired with the u32 flags read from the extras. -/
def respEntry (g : ResponsePacket) : List Nat × Nat :=
  (g.value, ((readU32 g.extra).map Prod.fst).getD 0)

end Memcached

namespace Memcached

/-- Running the get_multi loop over well-formed NoError non-Noop responses
followed by a Noop returns the map folded from their contributions. -/
theorem get_multi_loop_run (goods : List ResponsePacket)
    (noopResp : ResponsePacket) (rest : List ResponsePacket)
    (acc : List (List Nat × (List Nat × Nat)))
    (hg : ∀ g ∈ goods, g.header.status = .NoError ∧ g.header.command ≠ .Noop
      ∧ (readU32 g.extra).isSome)
    (hn : noopResp.header.command = .Noop)
    (hns : noopResp.header.status = .NoError) :
    BinaryProto.get_multi_loop (goods ++ noopResp :: rest) acc
      = .ok (goods.foldl (fun m g => insertAssoc m g.key (respEntry g)) acc) := by
  induction goods generalizing acc with
  | nil => simp [BinaryProto.get_multi_loop, hns, hn]
  | cons g gs ih =>
    obtain ⟨hst, hcmd, hext⟩ := hg g (by simp)
    obtain ⟨⟨flags, rem⟩, hflags⟩ := Option.isSome_iff_exists.mp hext
    simp only [List.cons_append, BinaryProto.get_multi_loop, hst, hcmd,
      hflags, List.foldl_cons, if_true, if_false, ite_true, ite_false]
    simp only [respEntry, hflags, Option.map_some', Option.getD_some]
    have := ih (insertAssoc acc g.key (g.value, flags))
      (fun q hq => hg q (List.mem_cons_of_mem g hq))
    simpa [hcmd] using this

/-- The get_multi loop aborts with a typed error carrying the status of
the first non-NoError response, regardless of content already seen. -/
theorem get_multi_loop_abort (goods : List ResponsePacket)
    (bad : ResponsePacket) (rest : List ResponsePacket)
    (acc : List (List Nat × (List Nat × Nat)))
    (hg : ∀ g ∈ goods, g.header.status = .NoError ∧ g.header.command ≠ .Noop
      ∧ (readU32 g.extra).isSome)
    (hbs : bad.header.status ≠ .NoError) :
    BinaryProto.get_multi_loop (goods ++ bad :: rest) acc
      = .error (.BinaryProtoError
          ⟨bad.header.status, bad.header.status.desc, none⟩) := by
  induction goods generalizing acc with
  | nil => simp [BinaryProto.get_multi_loop, hbs, Error.from_status]
  | cons g gs ih =>
    obtain ⟨hst, hcmd, hext⟩ := hg g (by simp)
    obtain ⟨⟨flags, rem⟩, hflags⟩ := Option.isSome_iff_exists.mp hext
    simp only [List.cons_append, BinaryProto.get_multi_loop, hst, hcmd,
      hflags, if_true, if_false, ite_true, ite_false]
    have := ih (insertAssoc acc g.key (g.value, flags))
      (fun q hq => hg q (List.mem_cons_of_mem g hq))
    simpa [hcmd] using this

/-- Inserting under a different key does not affect a lookup. -/
theorem lookupAssoc_insertAssoc_ne (m : List (List Nat × (List Nat × Nat)))
    (k k' : List Nat) (v : List Nat × Nat) (h : k' ≠ k) :
    lookupAssoc (insertAssoc m k' v) k = lookupAssoc m k := by
  induction m with
  | nil => simp [insertAssoc, lookupAssoc, h]
  | cons p rest ih =>
    obtain ⟨k0, v0⟩ := p
    by_cases h0 : k0 = k'
    · subst h0
      simp [insertAssoc, lookupAssoc, h]
    · have h2 : k ≠ k' := Ne.symm h
      by_cases hk : k0 = k <;> simp [insertAssoc, lookupAssoc, h0, hk, ih, h2]

/-- A key never answered stays absent from the folded result map. -/
theorem lookup_foldl_not_mem (gs : List ResponsePacket)
    (acc : List (List Nat × (List Nat × Nat))) (k : List Nat)
    (h : ∀ g ∈ gs, g.key ≠ k) :
    lookupAssoc (gs.foldl (fun m g => insertAssoc m g.key (respEntry g)) acc) k
      = lookupAssoc acc k := by
  induction gs generalizing acc with
  | nil => rfl
  | cons g gs ih =>
    simp only [List.foldl_cons]
    rw [ih (insertAssoc acc g.key (respEntry g))
      (fun q hq => h q (List.mem_cons_of_mem g hq))]
    exact lookupAssoc_insertAssoc_ne acc k g.key (respEntry g) (h g (by simp))

/-- The delete_multi loop returns success once the Noop arrives, when all
earlier responses carry NoError or KeyNotFound. -/
theorem delete_multi_loop_run (pre : List ResponsePacket)
    (noopResp : ResponsePacket) (rest : List ResponsePacket)
    (hp : ∀ p ∈ pre, (p.header.status = .NoError ∨ p.header.status = .KeyNotFound)
      ∧ p.header.command ≠ .Noop)
    (hn : noopResp.header.command = .Noop)
    (hns : noopResp.header.status = .NoError
      ∨ noopResp.header.status = .KeyNotFound) :
    BinaryProto.delete_multi_loop (pre ++ noopResp :: rest) = .ok () := by
  induction pre with
  | nil => simp [BinaryProto.delete_multi_loop, hns, hn]
  | cons p ps ih =>
    obtain ⟨hst, hcmd⟩ := hp p (by simp)
    simp only [List.cons_append, BinaryProto.delete_multi_loop, hst, hcmd,
      if_true, if_false, ite_true, ite_false]
    have := ih (fun q hq => hp q (by simp [hq]))
    simpa [hcmd, hst] using this

/-- The delete_multi loop aborts with a typed error carrying the first
status that is neither NoError nor KeyNotFound. -/
theorem delete_multi_loop_abort (pre : List ResponsePacket)
    (bad : ResponsePacket) (rest : List ResponsePacket)
    (hp : ∀ p ∈ pre, (p.header.status = .NoError ∨ p.header.status = .KeyNotFound)
      ∧ p.header.command ≠ .Noop)
    (hb1 : bad.header.status ≠ .NoError)
    (hb2 : bad.header.status ≠ .KeyNotFound) :
    BinaryProto.delete_multi_loop (pre ++ bad :: rest)
      = .error (.BinaryProtoError
          ⟨bad.header.status, bad.header.status.desc, none⟩) := by
  induction pre with
  | nil => simp [BinaryProto.delete_multi_loop, hb1, hb2, Error.from_status]
  | cons p ps ih =>
    obtain ⟨hst, hcmd⟩ := hp p (by simp)
    simp only [List.cons_append, BinaryProto.delete_multi_loop, hst, hcmd,
      if_true, if_false, ite_true, ite_false]
    have := ih (fun q hq => hp q (by simp [hq]))
    simpa [hcmd, hst] using this

end Memcached

namespace Memcached

/-- **C5**: get_multi writes one GetKeyQuietly request per key followed by
exactly one final Noop request; in the read loop, every NoError response
whose command is not Noop contributes its key to (value, flags) to the
result map, the loop terminates returning the accumulated map exactly
when a (NoError) Noop response is read, any response with a non-NoError
status aborts the whole batch with that typed error (this covers a Noop
carrying an error status too, since the status is checked first), and a
key no response answered is absent from the returned map. -/
theorem C5_get_multi (keys : List (List Nat)) (noopOpq : Nat)
    (goods : List ResponsePacket) (noopResp bad : ResponsePacket)
    (rest : List ResponsePacket) (k : List Nat)
    (hg : ∀ g ∈ goods, g.header.status = .NoError ∧ g.header.command ≠ .Noop
      ∧ (readU32 g.extra).isSome)
    (hn : noopResp.header.command = .Noop)
    (hns : noopResp.header.status = .NoError)
    (hbs : bad.header.status ≠ .NoError) :
    ((BinaryProto.get_multi_requests keys noopOpq).map
        (fun p => (p.header.command, p.key))
      = keys.map (fun key => (Command.GetKeyQuietly, key)) ++ [(Command.Noop, [])])
    ∧ BinaryProto.get_multi_loop (goods ++ noopResp :: rest) []
      = .ok (goods.foldl (fun m g => insertAssoc m g.key (respEntry g)) [])
    ∧ BinaryProto.get_multi_loop (goods ++ bad :: rest) []
      = .error (.BinaryProtoError
          ⟨bad.header.status, bad.header.status.desc, none⟩)
    ∧ ((∀ g ∈ goods, g.key ≠ k) →
      lookupAssoc
        (goods.foldl (fun m g => insertAssoc m g.key (respEntry g)) []) k
        = none) := by
  refine ⟨?_, get_multi_loop_run goods noopResp rest [] hg hn hns,
    get_multi_loop_abort goods bad rest [] hg hbs, fun hk => ?_⟩
  · simp [BinaryProto.get_multi_requests, RequestPacket.new,
      RequestHeader.from_payload, Function.comp]
  · rw [lookup_foldl_not_mem goods [] k hk]
    rfl

/-- Witness for C5: two answered keys, a terminating Noop, and an
unanswered key [9] absent from the result. -/
theorem C5_get_multi_witness :
    ((BinaryProto.get_multi_requests [[1], [2], [9]] 77).map
        (fun p => (p.header.command, p.key))
      = [(Command.GetKeyQuietly, [1]), (Command.GetKeyQuietly, [2]),
         (Command.GetKeyQuietly, [9]), (Command.Noop, [])])
    ∧ BinaryProto.get_multi_loop
        [⟨⟨.GetKeyQuietly, 1, 4, .RawBytes, .NoError, 6, 0, 0⟩,
           [0, 0, 0, 3], [1], [10]⟩,
         ⟨⟨.GetKeyQuietly, 1, 4, .RawBytes, .NoError, 6, 0, 0⟩,
           [0, 0, 0, 4], [2], [20]⟩,
         ⟨⟨.Noop, 0, 0, .RawBytes, .NoError, 0, 77, 0⟩, [], [], []⟩] []
      = .ok [([1], ([10], 3)), ([2], ([20], 4))]
    ∧ lookupAssoc [([1], ([10], 3)), ([2], ([20], 4))] [9] = none := by
  have h := C5_get_multi [[1], [2], [9]] 77
    [⟨⟨.GetKeyQuietly, 1, 4, .RawBytes, .NoError, 6, 0, 0⟩,
       [0, 0, 0, 3], [1], [10]⟩,
     ⟨⟨.GetKeyQuietly, 1, 4, .RawBytes, .NoError, 6, 0, 0⟩,
       [0, 0, 0, 4], [2], [20]⟩]
    ⟨⟨.Noop, 0, 0, .RawBytes, .NoError, 0, 77, 0⟩, [], [], []⟩
    ⟨⟨.GetKeyQuietly, 0, 0, .RawBytes, .Busy, 0, 0, 0⟩, [], [], []⟩
    [] [9] (by decide) rfl rfl (by decide)
  refine ⟨by simpa using h.1, ?_, ?_⟩
  · have h2 := h.2.1
    simpa [respEntry, readU32, insertAssoc] using h2
  · have h4 := h.2.2.2 (by decide)
    simpa [respEntry, readU32, insertAssoc] using h4

/-- **C6**: delete_multi (one DeleteQuietly request per key then one Noop)
returns success when every response read before the terminating Noop has
status NoError or KeyNotFound — KeyNotFound is ignorable, not an error —
and aborts the whole batch with a typed error carrying the status as soon
as any response carries another status. -/
theorem C6_delete_multi (keys : List (List Nat)) (noopOpq : Nat)
    (pre : List ResponsePacket) (noopResp bad : ResponsePacket)
    (rest : List ResponsePacket)
    (hp : ∀ p ∈ pre, (p.header.status = .NoError ∨ p.header.status = .KeyNotFound)
      ∧ p.header.command ≠ .Noop)
    (hn : noopResp.header.command = .Noop)
    (hns : noopResp.header.status = .NoError
      ∨ noopResp.header.status = .KeyNotFound)
    (hb1 : bad.header.status ≠ .NoError)
    (hb2 : bad.header.status ≠ .KeyNotFound) :
    ((BinaryProto.delete_multi_requests keys noopOpq).map
        (fun p => (p.header.command, p.key))
      = keys.map (fun key => (Command.DeleteQuietly, key)) ++ [(Command.Noop, [])])
    ∧ BinaryProto.delete_multi_loop (pre ++ noopResp :: rest) = .ok ()
    ∧ BinaryProto.delete_multi_loop (pre ++ bad :: rest)
      = .error (.BinaryProtoError
          ⟨bad.header.status, bad.header.status.desc, none⟩) := by
  refine ⟨?_, delete_multi_loop_run pre noopResp rest hp hn hns,
    delete_multi_loop_abort pre bad rest hp hb1 hb2⟩
  simp [BinaryProto.delete_multi_requests, RequestPacket.new,
    RequestHeader.from_payload, Function.comp]

/-- Witness for C6: one NoError delete response and one KeyNotFound delete
response followed by the Noop succeed as a whole; a Busy response aborts. -/
theorem C6_delete_multi_witness :
    BinaryProto.delete_multi_loop
      [⟨⟨.DeleteQuietly, 0, 0, .RawBytes, .NoError, 0, 0, 0⟩, [], [], []⟩,
       ⟨⟨.DeleteQuietly, 0, 0, .RawBytes, .KeyNotFound, 0, 0, 0⟩, [], [], []⟩,
       ⟨⟨.Noop, 0, 0, .RawBytes, .NoError, 0, 42, 0⟩, [], [], []⟩]
      = .ok ()
    ∧ BinaryProto.delete_multi_loop
      [⟨⟨.DeleteQuietly, 0, 0, .RawBytes, .KeyNotFound, 0, 0, 0⟩, [], [], []⟩,
       ⟨⟨.DeleteQuietly, 0, 0, .RawBytes, .Busy, 0, 0, 0⟩, [], [], []⟩]
      = .error (.BinaryProtoError ⟨.Busy, "busy", none⟩) := by
  have h1 := C6_delete_multi [] 42
    [⟨⟨.DeleteQuietly, 0, 0, .RawBytes, .NoError, 0, 0, 0⟩, [], [], []⟩,
     ⟨⟨.DeleteQuietly, 0, 0, .RawBytes, .KeyNotFound, 0, 0, 0⟩, [], [], []⟩]
    ⟨⟨.Noop, 0, 0, .RawBytes, .NoError, 0, 42, 0⟩, [], [], []⟩
    ⟨⟨.DeleteQuietly, 0, 0, .RawBytes, .Busy, 0, 0, 0⟩, [], [], []⟩
    [] (by decide) rfl (by decide) (by decide) (by decide)
  have h2 := C6_delete_multi [] 42
    [⟨⟨.DeleteQuietly, 0, 0, .RawBytes, .KeyNotFound, 0, 0, 0⟩, [], [], []⟩]
    ⟨⟨.Noop, 0, 0, .RawBytes, .NoError, 0, 42, 0⟩, [], [], []⟩
    ⟨⟨.DeleteQuietly, 0, 0, .RawBytes, .Busy, 0, 0, 0⟩, [], [], []⟩
    [] (by decide) rfl (by decide) (by decide) (by decide)
  exact ⟨h1.2.1, h2.2.2⟩

end Memcached

namespace Memcached

/-! ### Client facade and consistent-hash routing (src/client/mod.rs)

The conhash crate is an external collaborator; following the spec, the
ring deterministically assigns each key to one server, which we model
as an abstract selection function from key bytes to a server index.
find_server_by_key calls expect on the selection, so a failed selection
is a panic, modelled by the none outcome of each dispatch function.
Each single-key Client operation selects the server for its key and
invokes one driver operation there; the invoked call and its arguments
are reified as a DriverCall value. -/

/-- Abstract consistent-hash ring: key bytes to server index. -/
structure HashRing where
  select : List Nat → Option Nat

/-- A single-key driver invocation with its arguments. -/
inductive DriverCall where
  | set (key value : List Nat) (flags expiration : Nat)
  | add (key value : List Nat) (flags expiration : Nat)
  | delete (key : List Nat)
  | replace (key value : List Nat) (flags expiration : Nat)
  | get (key : List Nat)
  | getk (key : List Nat)
  | increment (key : List Nat) (amount initial expiration : Nat)
  | decrement (key : List Nat) (amount initial expiration : Nat)
  | append (key value : List Nat)
  | prepend (key value : List Nat)
  | touch (key : List Nat) (expiration : Nat)
  deriving DecidableEq, Repr

/-- Client::set (client/mod.rs lines 252-255). -/
def Client.set (ring : HashRing) (key value : List Nat)
    (flags expiration : Nat) : Option (Nat × DriverCall) :=
  (ring.select key).map (fun i => (i, DriverCall.set key value flags expiration))

/-- Client::add. -/
def Client.add (ring : HashRing) (key value : List Nat)
    (flags expiration : Nat) : Option (Nat × DriverCall) :=
  (ring.select key).map (fun i => (i, DriverCall.add key value flags expiration))

/-- Client::delete. -/
def Client.delete (ring : HashRing) (key : List Nat) :
    Option (Nat × DriverCall) :=
  (ring.select key).map (fun i => (i, DriverCall.delete key))

/-- Client::replace. -/
def Client.replace (ring : HashRing) (key value : List Nat)
    (flags expiration : Nat) : Option (Nat × DriverCall) :=
  (ring.select key).map (fun i => (i, DriverCall.replace key value flags expiration))

/-- Client::get. -/
def Client.get (ring : HashRing) (key : List Nat) :
    Option (Nat × DriverCall) :=
  (ring.select key).map (fun i => (i, DriverCall.get key))

/-- Client::getk. -/
def Client.getk (ring : HashRing) (key : List Nat) :
    Option (Nat × DriverCall) :=
  (ring.select key).map (fun i => (i, DriverCall.getk key))

/-- Client::increment (client/mod.rs lines 282-285). -/
def Client.increment (ring : HashRing) (key : List Nat)
    (amount initial expiration : Nat) : Option (Nat × DriverCall) :=
  (ring.select key).map
    (fun i => (i, DriverCall.increment key amount initial expiration))

/-- Client::decrement (client/mod.rs lines 287-290).  The source body is
server.borrow_mut().proto.increment(key, amount, initial, expiration):
it invokes the driver's increment, not decrement. -/
def Client.decrement (ring : HashRing) (key : List Nat)
    (amount initial expiration : Nat) : Option (Nat × DriverCall) :=
  (ring.select key).map
    (fun i => (i, DriverCall.increment key amount initial expiration))

/-- Client::append. -/
def Client.append (ring : HashRing) (key value : List Nat) :
    Option (Nat × DriverCall) :=
  (ring.select key).map (fun i => (i, DriverCall.append key value))

/-- Client::prepend. -/
def Client.prepend (ring : HashRing) (key value : List Nat) :
    Option (Nat × DriverCall) :=
  (ring.select key).map (fun i => (i, DriverCall.prepend key value))

/-- Client::touch. -/
def Client.touch (ring : HashRing) (key : List Nat) (expiration : Nat) :
    Option (Nat × DriverCall) :=
  (ring.select key).map (fun i => (i, DriverCall.touch key expiration))

/-- **C2** evaluation at the failing input: with a one-server ring,
Client::decrement(key = [107], amount = 10, initial = 0, expiration = 20)
invokes the selected driver's increment with those arguments — the same
call Client::increment makes — and that is not the driver's decrement
call the claim requires. -/
theorem C2_decrement_calls_increment :
    Client.decrement ⟨fun _ => some 0⟩ [107] 10 0 20
      = some (0, DriverCall.increment [107] 10 0 20)
    ∧ Client.increment ⟨fun _ => some 0⟩ [107] 10 0 20
      = some (0, DriverCall.increment [107] 10 0 20)
    ∧ DriverCall.increment [107] 10 0 20 ≠ DriverCall.decrement [107] 10 0 20 := by
  exact ⟨rfl, rfl, by decide⟩

end Memcached

namespace Memcached

/-- The constructed client's ring contents: the configured servers (the
conhash ring's node set; its len() is the number of servers). -/
structure ClientServers where
  servers : List String
  deriving DecidableEq, Repr

/-- Outcome of Client::conn: the assert! on an empty server list fails
fast, otherwise every server is dialed (I/O, elided) and added to the
ring. -/
inductive ConnResult where
  | assertFail
  | ok (c : ClientServers)
  deriving DecidableEq, Repr

/-- Client::conn (client/mod.rs lines 229-244). -/
def Client.conn (svrs : List (String × Nat)) : ConnResult :=
  if svrs.isEmpty then .assertFail
  else .ok ⟨svrs.map (fun sw => sw.1)⟩

/-- Outcome of a multi-key Client operation: the assert_eq! on the ring
size can fail, the keys()/next().unwrap() or keys[0] indexing can panic
on an empty argument, or the call is delegated to the one server's
driver with unchanged arguments. -/
inductive MultiDispatch (α : Type) where
  | assertFail
  | panicked
  | delegated (args : α)
  deriving DecidableEq, Repr

/-- Client::set_multi (client/mod.rs lines 432-436): assert_eq! that the
ring has exactly one server, pick the server for the first key (unwrap
panics on an empty map), delegate set_multi(kv) unchanged. -/
def Client.set_multi (c : ClientServers)
    (kv : List (List Nat × (List Nat × Nat × Nat))) :
    MultiDispatch (List (List Nat × (List Nat × Nat × Nat))) :=
  if c.servers.length = 1 then
    match kv with
    | [] => .panicked
    | _ => .delegated kv
  else .assertFail

/-- Client::delete_multi (client/mod.rs lines 437-441). -/
def Client.delete_multi (c : ClientServers) (keys : List (List Nat)) :
    MultiDispatch (List (List Nat)) :=
  if c.servers.length = 1 then
    match keys with
    | [] => .panicked
    | _ => .delegated keys
  else .assertFail

/-- Client::increment_multi (client/mod.rs lines 442-449). -/
def Client.increment_multi (c : ClientServers)
    (kv : List (List Nat × (Nat × Nat × Nat))) :
    MultiDispatch (List (List Nat × (Nat × Nat × Nat))) :=
  if c.servers.length = 1 then
    match kv with
    | [] => .panicked
    | _ => .delegated kv
  else .assertFail

/-- Client::get_multi (client/mod.rs lines 450-454). -/
def Client.get_multi (c : ClientServers) (keys : List (List Nat)) :
    MultiDispatch (List (List Nat)) :=
  if c.servers.length = 1 then
    match keys with
    | [] => .panicked
    | _ => .delegated keys
  else .assertFail

/-- **C9**: constructing a Client from an empty server list always fails
the assert (no zero-server client is produced; any nonempty list yields
a client over exactly those servers), and every multi-key operation
asserts that the ring holds exactly one server: with any other server
count it assert-fails before doing anything, and with exactly one server
it delegates the call with unchanged arguments. -/
theorem C9_construction_and_multi_asserts (svrs : List (String × Nat))
    (c : ClientServers) (kv : List (List Nat × (List Nat × Nat × Nat)))
    (ikv : List (List Nat × (Nat × Nat × Nat))) (keys : List (List Nat))
    (hsv : svrs ≠ []) :
    Client.conn [] = .assertFail
    ∧ Client.conn svrs = .ok ⟨svrs.map (fun sw => sw.1)⟩
    ∧ (c.servers.length ≠ 1 →
        Client.set_multi c kv = .assertFail
        ∧ Client.delete_multi c keys = .assertFail
        ∧ Client.increment_multi c ikv = .assertFail
        ∧ Client.get_multi c keys = .assertFail)
    ∧ (c.servers.length = 1 →
        (kv ≠ [] → Client.set_multi c kv = .delegated kv)
        ∧ (keys ≠ [] → Client.delete_multi c keys = .delegated keys
            ∧ Client.get_multi c keys = .delegated keys)
        ∧ (ikv ≠ [] → Client.increment_multi c ikv = .delegated ikv)) := by
  refine ⟨rfl, ?_, fun hne => ?_, fun hone => ⟨fun hkv => ?_, fun hk => ?_, fun hikv => ?_⟩⟩
  · simp [Client.conn, hsv]
  · simp [Client.set_multi, Client.delete_multi, Client.increment_multi,
      Client.get_multi, hne]
  · cases kv with
    | nil => exact absurd rfl hkv
    | cons p rest => simp [Client.set_multi, hone]
  · cases keys with
    | nil => exact absurd rfl hk
    | cons p rest =>
      constructor <;> simp [Client.delete_multi, Client.get_multi, hone]
  · cases ikv with
    | nil => exact absurd rfl hikv
    | cons p rest => simp [Client.increment_multi, hone]

/-- Witness for C9: a two-server client assert-fails get_multi; a
one-server client delegates it unchanged. -/
theorem C9_construction_and_multi_asserts_witness :
    Client.conn [] = .assertFail
    ∧ Client.conn [("tcp://a:1", 1)] = .ok ⟨["tcp://a:1"]⟩
    ∧ Client.get_multi ⟨["tcp://a:1", "tcp://b:1"]⟩ [[1]] = .assertFail
    ∧ Client.get_multi ⟨["tcp://a:1"]⟩ [[1]] = .delegated [[1]] := by
  have h1 := C9_construction_and_multi_asserts [("tcp://a:1", 1)]
    ⟨["tcp://a:1", "tcp://b:1"]⟩ [] [] [[1]] (by simp)
  have h2 := C9_construction_and_multi_asserts [("tcp://a:1", 1)]
    ⟨["tcp://a:1"]⟩ [] [] [[1]] (by simp)
  exact ⟨h1.1, h1.2.1, (h1.2.2.1 (by simp)).2.2.2,
    ((h2.2.2.2 (by simp)).2.1 (by simp)).2⟩

end Memcached
